import Mathlib

/-!
Verification of the Cuttle card-game engine (src/game of the repository)
against its natural-language specification.

The embedding translates `src/game/card.py`, `src/game/action.py`,
`src/game/game_state.py` and `src/game/serializer.py` into pure Lean
definitions.  Python objects are mutable and compared by identity
(`Card` defines no `__eq__`, so `in` / `remove` on lists compare object
identity).  The embedding gives cards a numeric `id` and models object
identity by that id: every container holds the card's current value, a
mutation of a card object is a by-id update of every container that
holds it (`GameState.mutateCard`), and `in` / `remove` become
`memberById` / `extractById`.  In a well-formed state ids are unique, so
this models reference semantics exactly on the code paths treated here.

Exceptions propagate in Python while mutations performed before the
raise persist; fallible operations therefore return the (possibly
mutated) state together with `Except String α`.
-/

namespace Cuttle

/-- Suits, from `card.py` (`Suit` enum). -/
inductive Suit where
  | clubs | diamonds | hearts | spades
deriving DecidableEq, Repr

/-- Numeric suit value, the second component of the Python `Suit` enum value:
Clubs 0 < Diamonds 1 < Hearts 2 < Spades 3. -/
def Suit.val : Suit → Nat
  | .clubs => 0
  | .diamonds => 1
  | .hearts => 2
  | .spades => 3

/-- Ranks, from `card.py` (`Rank` enum). -/
inductive Rank where
  | ace | two | three | four | five | six | seven | eight | nine | ten
  | jack | queen | king
deriving DecidableEq, Repr

/-- Numeric rank value, the second component of the Python `Rank` enum value:
Ace 1 … King 13. -/
def Rank.val : Rank → Nat
  | .ace => 1
  | .two => 2
  | .three => 3
  | .four => 4
  | .five => 5
  | .six => 6
  | .seven => 7
  | .eight => 8
  | .nine => 9
  | .ten => 10
  | .jack => 11
  | .queen => 12
  | .king => 13

/-- Card purposes, from `card.py` (`Purpose` enum). -/
inductive Purpose where
  | points | face_card | one_off | counter | jack | scuttle
deriving DecidableEq, Repr

/-- A playing card, from `card.py` (`Card`): immutable identity
`(id, suit, rank)` plus the mutable facets `played_by`, `purpose` and the
ordered `attachments` list (stacked Jacks).  `attachments` holds full
cards, as in the source, so the type is a nested inductive. -/
inductive Card where
  | mk (id : Nat) (suit : Suit) (rank : Rank) (played_by : Option Nat)
      (purpose : Option Purpose) (attachments : List Card)

/-- The card's unique identity (`Card.id`). -/
def Card.id : Card → Nat
  | .mk i _ _ _ _ _ => i

/-- The card's suit. -/
def Card.suit : Card → Suit
  | .mk _ s _ _ _ _ => s

/-- The card's rank. -/
def Card.rank : Card → Rank
  | .mk _ _ r _ _ _ => r

/-- Which player currently played the card, if any (`Card.played_by`). -/
def Card.played_by : Card → Option Nat
  | .mk _ _ _ p _ _ => p

/-- The card's current purpose, if any (`Card.purpose`). -/
def Card.purpose : Card → Option Purpose
  | .mk _ _ _ _ q _ => q

/-- The cards attached to this card (`Card.attachments`). -/
def Card.attachments : Card → List Card
  | .mk _ _ _ _ _ a => a

/-- Assignment `card.played_by = v`. -/
def Card.setPlayedBy (v : Option Nat) : Card → Card
  | .mk i s r _ q a => .mk i s r v q a

/-- Assignment `card.purpose = v`. -/
def Card.setPurpose (v : Option Purpose) : Card → Card
  | .mk i s r p _ a => .mk i s r p v a

/-- `Card.clear_player_info`: resets `played_by` and `purpose`. -/
def Card.clear_player_info : Card → Card
  | .mk i s r _ _ a => .mk i s r none none a

/-- `card.attachments.append(x)`. -/
def Card.appendAttachment (x : Card) : Card → Card
  | .mk i s r p q a => .mk i s r p q (a ++ [x])

/-- `Card.point_value`: the numeric rank value. -/
def Card.point_value (c : Card) : Nat := c.rank.val

/-- `Card.suit_value`: the numeric suit value. -/
def Card.suit_value (c : Card) : Nat := c.suit.val

/-- `Card.is_point_card`: point value at most Ten (10). -/
def Card.is_point_card (c : Card) : Bool := c.point_value ≤ 10

/-- `Card.is_face_card`: point value at least Jack (11), or exactly Eight. -/
def Card.is_face_card (c : Card) : Bool :=
  11 ≤ c.point_value || c.point_value == 8

/-- `Card.is_one_off`: rank in {Ace, Three, Four, Five, Six}. -/
def Card.is_one_off (c : Card) : Bool :=
  c.rank == .ace || c.rank == .three || c.rank == .four ||
  c.rank == .five || c.rank == .six

/-- `Card.is_stolen`: odd number of attachments. -/
def Card.is_stolen (c : Card) : Bool := c.attachments.length % 2 == 1

/-- The mutable game state, from `game_state.py` (`GameState`).  The two
players' hands and fields are the two entries of the Python lists
`hands` / `fields`; `ai_player` is modelled as a presence flag (the real
attribute holds an external LLM/RL adversary, out of engine scope). -/
structure GameState where
  hand0 : List Card
  hand1 : List Card
  field0 : List Card
  field1 : List Card
  deck : List Card
  discard_pile : List Card
  turn : Nat
  current_action_player : Nat
  status : Option String
  resolving_two : Bool
  resolving_one_off : Bool
  resolving_three : Bool
  one_off_card_to_counter : Option Card
  use_ai : Bool
  ai_player : Bool
  overall_turn : Nat
  last_action_played_by : Option Nat

/-- `GameState.__init__(hands, fields, deck, discard_pile, …)`: the four
containers are given, everything else takes the constructor's defaults. -/
def GameState.init (hands fields : List Card × List Card)
    (deck discard_pile : List Card) (use_ai : Bool := false)
    (ai_player : Bool := false) : GameState where
  hand0 := hands.1
  hand1 := hands.2
  field0 := fields.1
  field1 := fields.2
  deck := deck
  discard_pile := discard_pile
  turn := 0
  current_action_player := 0
  status := none
  resolving_two := false
  resolving_one_off := false
  resolving_three := false
  one_off_card_to_counter := none
  use_ai := use_ai
  ai_player := ai_player
  overall_turn := 0
  last_action_played_by := none

/-- `self.hands[p]` for a player index `p` (the source only ever indexes
with 0, 1, or values reduced mod 2). -/
def hand (s : GameState) (p : Nat) : List Card :=
  match p with
  | 0 => s.hand0
  | _ => s.hand1

/-- `self.fields[p]`. -/
def field (s : GameState) (p : Nat) : List Card :=
  match p with
  | 0 => s.field0
  | _ => s.field1

/-- Replace `self.hands[p]` wholesale (the net effect of the source's
in-place list mutations on a hand). -/
def setHand (s : GameState) (p : Nat) (l : List Card) : GameState :=
  match p with
  | 0 => { s with hand0 := l }
  | _ => { s with hand1 := l }

/-- Replace `self.fields[p]` wholesale. -/
def setField (s : GameState) (p : Nat) (l : List Card) : GameState :=
  match p with
  | 0 => { s with field0 := l }
  | _ => { s with field1 := l }

/-- `self.discard_pile.append(c)`. -/
def addDiscard (s : GameState) (c : Card) : GameState :=
  { s with discard_pile := s.discard_pile ++ [c] }

/-- `self.discard_pile.extend(l)` (several consecutive appends). -/
def addDiscardMany (s : GameState) (l : List Card) : GameState :=
  { s with discard_pile := s.discard_pile ++ l }

/-- Python's identity test `card in l` under the unique-id convention. -/
def memberById (l : List Card) (cid : Nat) : Bool :=
  l.any (fun c => c.id == cid)

/-- Python's `l.remove(card)` (drop the first member with the card's
identity) paired with the live value of that member: returns
`some (live, remaining)` or `none` when the card is absent. -/
def extractById : List Card → Nat → Option (Card × List Card)
  | [], _ => none
  | c :: t, cid =>
    if c.id == cid then some (c, t)
    else match extractById t cid with
      | some (live, rest) => some (live, c :: rest)
      | none => none

/-- A mutation of the card object with identity `cid`, applied to every
container that can hold a reference to it (hands, fields, deck, discard
pile, the pending one-off pointer).  This models Python's in-place
attribute assignment on a card object. -/
def mutateCard (s : GameState) (cid : Nat) (f : Card → Card) : GameState :=
  let g : List Card → List Card :=
    fun l => l.map (fun c => if c.id == cid then f c else c)
  { s with
    hand0 := g s.hand0
    hand1 := g s.hand1
    field0 := g s.field0
    field1 := g s.field1
    deck := g s.deck
    discard_pile := g s.discard_pile
    one_off_card_to_counter :=
      s.one_off_card_to_counter.map (fun c => if c.id == cid then f c else c) }

/-- `GameState.next_turn`: advance `turn` modulo the number of players,
reset `current_action_player`, and bump `overall_turn` when wrapping to
player 0.  Nothing else is touched. -/
def next_turn (s : GameState) : GameState :=
  let t := (s.turn + 1) % 2
  { s with
    turn := t
    current_action_player := t
    overall_turn := if t == 0 then s.overall_turn + 1 else s.overall_turn }

/-- `GameState.next_player`: toggle only `current_action_player`. -/
def next_player (s : GameState) : GameState :=
  { s with current_action_player := (s.current_action_player + 1) % 2 }

/-- `GameState.player_point_cards(p)`: own unstolen point cards followed
by the opponent's stolen point cards (two consecutive loops in the
source). -/
def player_point_cards (s : GameState) (p : Nat) : List Card :=
  (field s p).filter
    (fun c => c.purpose == some .points && !c.is_stolen) ++
  (field s ((p + 1) % 2)).filter
    (fun c => c.purpose == some .points && c.is_stolen)

/-- `GameState.get_player_score(p)`: sum of point values over
`player_point_cards(p)`. -/
def get_player_score (s : GameState) (p : Nat) : Nat :=
  ((player_point_cards s p).map Card.point_value).sum

/-- `GameState.get_player_field(p)`: non-point cards, then own unstolen
point cards, then opponent's stolen point cards. -/
def get_player_field (s : GameState) (p : Nat) : List Card :=
  (field s p).filter (fun c => !(c.purpose == some .points)) ++
  (field s p).filter
    (fun c => c.purpose == some .points && !c.is_stolen) ++
  (field s ((p + 1) % 2)).filter
    (fun c => c.purpose == some .points && c.is_stolen)

/-- `GameState.get_player_target(p)`: 21/14/10/5 for 0-3 Kings on the
player's field, 0 for four or more. -/
def get_player_target (s : GameState) (p : Nat) : Nat :=
  let numKings := ((field s p).filter (fun c => c.rank == .king)).length
  if numKings == 0 then 21
  else if numKings == 1 then 14
  else if numKings == 2 then 10
  else if numKings == 3 then 5
  else 0

/-- `GameState.is_winner(p)`: score meets or exceeds the target. -/
def is_winner (s : GameState) (p : Nat) : Bool :=
  get_player_target s p ≤ get_player_score s p

/-- `GameState.winner`: the first player (0 first) who is a winner. -/
def winner (s : GameState) : Option Nat :=
  if is_winner s 0 then some 0
  else if is_winner s 1 then some 1
  else none

/-- `GameState.is_stalemate`: deck empty and nobody won. -/
def is_stalemate (s : GameState) : Bool :=
  s.deck.isEmpty && (winner s).isNone

/-! Concrete cards and states used by witnesses and counterexamples. -/

/-- A sample Ace. -/
def aceSpades : Card := .mk 1 .spades .ace none none []

/-- An empty game state (both hands and fields empty, no deck). -/
def emptyState : GameState := GameState.init ([], []) ([], []) [] []

/-- A state frozen mid counter-chain: both phase flags set and a pending
one-off card, as the claim about `next_turn` would have them cleared. -/
def stateMidChain : GameState :=
  { emptyState with
    resolving_one_off := true
    resolving_three := true
    one_off_card_to_counter := some aceSpades }

/-- A state whose player 0 has four Kings on th e field and no points. -/
def stateFourKings : GameState :=
  { emptyState with
    field0 := [.mk 21 .hearts .king (some 0) (some .face_card) [],
               .mk 22 .clubs .king (some 0) (some .face_card) [],
               .mk 23 .diamonds .king (some 0) (some .face_card) [],
               .mk 24 .spades .king (some 0) (some .face_card) []] }

/-- C10: with at least four Kings on `fields[p]`, `get_player_target`
returns 0, and since `get_player_score` is a sum of natural point
values, `is_winner(p)` holds regardless of the player's point cards. -/
theorem four_kings_always_winner (s : GameState) (p : Nat) (hp : p < 2)
    (hk : 4 ≤ ((field s p).filter (fun c => c.rank == Rank.king)).length) :
    is_winner s p = true := by
  have h0 : get_player_target s p = 0 := by
    simp only [get_player_target]
    split_ifs with h1 h2 h3 h4
    · simp only [beq_iff_eq] at h1; omega
    · simp only [beq_iff_eq] at h2; omega
    · simp only [beq_iff_eq] at h3; omega
    · simp only [beq_iff_eq] at h4; omega
    · rfl
  unfold is_winner
  rw [h0]
  simp

/-- Witness for `four_kings_always_winner` at the four-Kings state. -/
theorem four_kings_always_winner_witness :
    (0 : Nat) < 2 ∧
    4 ≤ ((field stateFourKings 0).filter (fun c => c.rank == Rank.king)).length ∧
    is_winner stateFourKings 0 = true :=
  ⟨by decide, by decide,
   four_kings_always_winner stateFourKings 0 (by decide) (by decide)⟩

/-- C6 counterexample: `next_turn` leaves `resolving_one_off`,
`resolving_three` and the pending one-off card untouched, contradicting
the claim that it clears all phase flags and the pending card. -/
theorem next_turn_keeps_flags_counterexample :
    stateMidChain.resolving_one_off = true ∧
    (next_turn stateMidChain).resolving_one_off = true ∧
    (next_turn stateMidChain).resolving_three = true ∧
    (next_turn stateMidChain).one_off_card_to_counter = some aceSpades :=
  ⟨rfl, rfl, rfl, rfl⟩

/-- C6 amended: `next_turn` advances `turn` modulo 2, resets
`current_action_player` to the new turn, increments `overall_turn`
exactly when the new turn is player 0, and leaves the phase flags
(`resolving_one_off`, `resolving_three`, `resolving_two`) and the
pending one-off card unchanged. -/
theorem next_turn_spec (s : GameState) :
    (next_turn s).turn = (s.turn + 1) % 2 ∧
    (next_turn s).current_action_player = (s.turn + 1) % 2 ∧
    (next_turn s).overall_turn =
      (if (s.turn + 1) % 2 == 0 then s.overall_turn + 1 else s.overall_turn) ∧
    (next_turn s).resolving_one_off = s.resolving_one_off ∧
    (next_turn s).resolving_three = s.resolving_three ∧
    (next_turn s).resolving_two = s.resolving_two ∧
    (next_turn s).one_off_card_to_counter = s.one_off_card_to_counter ∧
    (next_turn s).hand0 = s.hand0 ∧ (next_turn s).hand1 = s.hand1 ∧
    (next_turn s).deck = s.deck ∧
    (next_turn s).discard_pile = s.discard_pile :=
  ⟨rfl, rfl, rfl, rfl, rfl, rfl, rfl, rfl, rfl, rfl, rfl⟩

/-! Actions, from `action.py`. -/

/-- `ActionType` enum. -/
inductive ActionType where
  | draw | points | face_card | one_off | counter | resolve | scuttle | jack
  | request_stalemate | accept_stalemate | reject_stalemate | concede
deriving DecidableEq, Repr

/-- `ActionSource` enum. -/
inductive ActionSource where
  | hand | deck | onField | discard
deriving DecidableEq, Repr

/-- `Action`: a value object describing a player's move.  Defaults match
the Python constructor. -/
structure Action where
  action_type : ActionType
  played_by : Nat
  card : Option Card := none
  target : Option Card := none
  requires_additional_input : Bool := false
  source : ActionSource := .hand

/-- `GameState.get_legal_actions`, translated branch by branch:
 * `resolving_three` set: the source returns `[]` (the interactive
   choice happens inside `apply_one_off_effect` instead);
 * `resolving_one_off` set: Counter actions for each Two in
   `hands[current_action_player]` (none when the opponent of the
   counterer has a Queen on the field), then a single Resolve action;
 * otherwise (base phase): a Draw action is appended first and
   unconditionally, then Points for each point card in hand, FaceCard
   for each King/Queen, Jack actions when the opponent has no Queen,
   OneOff for each one-off rank, and scuttles for each opponent point
   card / higher point card pair. -/
def get_legal_actions (s : GameState) : List Action :=
  if s.resolving_three then []
  else if s.resolving_one_off then
    let twos := (hand s s.current_action_player).filter
      (fun c => c.rank == .two)
    let other_player := (s.current_action_player + 1) % 2
    let queen_on_opponent_field :=
      (field s other_player).any (fun c => c.rank == .queen)
    let counters :=
      if queen_on_opponent_field then []
      else twos.map (fun two =>
        { action_type := .counter, played_by := s.current_action_player,
          card := some two, target := s.one_off_card_to_counter })
    counters ++
      [{ action_type := .resolve, played_by := s.current_action_player,
         target := s.one_off_card_to_counter }]
  else
    let drawA : List Action := [{ action_type := .draw, played_by := s.turn }]
    let h := hand s s.turn
    let pointsA := (h.filter (fun c => c.point_value ≤ 10)).map
      (fun c => { action_type := .points, played_by := s.turn,
                  card := some c : Action })
    let faceA := (h.filter (fun c =>
        c.is_face_card && (c.rank == .king || c.rank == .queen))).map
      (fun c => { action_type := .face_card, played_by := s.turn,
                  card := some c : Action })
    let opponent := (s.current_action_player + 1) % 2
    let queen_on_opponent_field :=
      (field s opponent).any (fun c => c.rank == .queen)
    let jackA := h.flatMap (fun c =>
      if c.rank == .jack && !queen_on_opponent_field then
        ((get_player_field s opponent).filter
            (fun oc => oc.purpose == some .points)).map
          (fun oc => { action_type := .jack, played_by := s.turn,
                       card := some c, target := some oc : Action })
      else [])
    let oneOffA := (h.filter Card.is_one_off).map
      (fun c => { action_type := .one_off, played_by := s.turn,
                  card := some c : Action })
    let opponent2 := (s.turn + 1) % 2
    let opponent_points := (field s opponent2).filter
      (fun c => c.purpose == some .points)
    let point_cards := h.filter (fun c => c.point_value ≤ 10)
    let scuttleA := opponent_points.flatMap (fun oc =>
      (point_cards.filter (fun c =>
          oc.point_value < c.point_value ||
          (c.point_value == oc.point_value &&
           oc.suit_value < c.suit_value))).map
        (fun c => { action_type := .scuttle, played_by := s.turn,
                    card := some c, target := some oc : Action }))
    drawA ++ pointsA ++ faceA ++ jackA ++ oneOffA ++ scuttleA

/-- A base-phase state whose deck is empty (and whose hand even has 8
cards), where per the claim no Draw action should be enumerated. -/
def stateEmptyDeck : GameState :=
  { emptyState with
    deck := []
    hand0 := [.mk 31 .hearts .two none none [],
              .mk 32 .hearts .three none none [],
              .mk 33 .hearts .four none none [],
              .mk 34 .hearts .five none none [],
              .mk 35 .hearts .six none none [],
              .mk 36 .hearts .seven none none [],
              .mk 37 .hearts .eight none none [],
              .mk 38 .hearts .nine none none []] }

/-- C1 counterexample: in a base-phase state with an empty deck (and a
full 8-card hand), `get_legal_actions` still contains a Draw action,
contradicting "Draw iff deck non-empty and hand < 8" and "deck empty
implies no Draw legal". -/
theorem draw_enumerated_with_empty_deck_counterexample :
    stateEmptyDeck.deck = [] ∧
    (hand stateEmptyDeck stateEmptyDeck.turn).length = 8 ∧
    (get_legal_actions stateEmptyDeck).any
      (fun a => a.action_type == .draw) = true :=
  ⟨rfl, rfl, rfl⟩

/-- C1 amended: in the base phase (neither `resolving_three` nor
`resolving_one_off`), `get_legal_actions` always puts a Draw action
first, regardless of the deck size or the hand size; the deck-empty and
hand-full conditions are only enforced later, when the Draw is applied. -/
theorem draw_always_first_in_base_phase (s : GameState)
    (h3 : s.resolving_three = false) (h1 : s.resolving_one_off = false) :
    ∃ rest, get_legal_actions s =
      { action_type := .draw, played_by := s.turn : Action } :: rest := by
  unfold get_legal_actions
  rw [h3, h1]
  simp only [if_false, Bool.false_eq_true]
  exact ⟨_, rfl⟩

/-- Witness for `draw_always_first_in_base_phase` at the empty-deck
state. -/
theorem draw_always_first_in_base_phase_witness :
    stateEmptyDeck.resolving_three = false ∧
    stateEmptyDeck.resolving_one_off = false ∧
    ∃ rest, get_legal_actions stateEmptyDeck =
      { action_type := .draw, played_by := stateEmptyDeck.turn : Action } :: rest :=
  ⟨rfl, rfl, draw_always_first_in_base_phase stateEmptyDeck rfl rfl⟩

/-! Card-moving operations of `game_state.py`.  Fallible operations
return the possibly mutated state together with `Except String α`:
Python exceptions propagate while mutations made before the raise
persist. -/

/-- The inner loop of `GameState.draw_card`: `count` times, pop the top
(last element) of the deck and append it to `hands[turn]`; popping an
empty deck raises. -/
def drawLoop : GameState → Nat → GameState × Except String Unit
  | s, 0 => (s, .ok ())
  | s, n + 1 =>
    match s.deck.getLast? with
    | none => (s, .error "IndexError: pop from empty list")
    | some c =>
      drawLoop
        (setHand { s with deck := s.deck.dropLast } s.turn
          (hand s s.turn ++ [c])) n

/-- `GameState.draw_card(count)`: raises when the current hand already
has 8 cards, otherwise draws `count` cards off the top of the deck. -/
def draw_card (s : GameState) (count : Nat := 1) :
    GameState × Except String Unit :=
  if (hand s s.turn).length == 8 then
    (s, .error "Player has 8 cards, cannot draw")
  else drawLoop s count

/-- `GameState.play_points(card)`: remove the card from the current hand
(raising if absent), mark it `Points` played by the current player,
append it to the current field, then check whether the actor won. -/
def play_points (s : GameState) (c : Card) : GameState × Except String Bool :=
  match extractById (hand s s.turn) c.id with
  | none => (s, .error "ValueError: list.remove(x): x not in list")
  | some (live, rest) =>
    let c' := (live.setPurpose (some .points)).setPlayedBy (some s.turn)
    let s1 := setHand s s.turn rest
    let s2 := setField s1 s.turn (field s1 s.turn ++ [c'])
    if get_player_target s2 s.turn ≤ get_player_score s2 s.turn then
      ({ s2 with status := some "win" }, .ok true)
    else (s2, .ok false)

/-- The net effect, on the card object, of
`x.clear_player_info()` followed by the loop clearing each of its
attachment objects: the object's own facets and the facets of every
attachment entry are reset (the attachment entries are the very objects
cleared by the loop). -/
def Card.clearedForDiscard : Card → Card
  | .mk i s r _ _ a => .mk i s r none none (a.map Card.clear_player_info)

/-- Appending a removed card and then its attachments to the discard
pile, each cleared, as in `scuttle` and the Ace one-off. -/
def discardWithAttachments (s : GameState) (live : Card) : GameState :=
  addDiscardMany s
    (live.clearedForDiscard :: live.attachments.map Card.clear_player_info)

/-- `GameState.scuttle(card, target)`, translated line by line:
 1. raise when the two cards have equal point value and the attacker's
    suit is not higher (the only comparison the source makes);
 2. assign `card.played_by = turn` (a mutation that persists even if a
    later step raises), then remove the card from `hands[turn]`,
    raising if it is not there;
 3. move the card and its attachments, cleared, to the discard pile;
 4. if `target.played_by` is set, remove the target from that player's
    field (raising if absent); either way move the target and its
    attachments, cleared, to the discard pile. -/
def scuttle (s : GameState) (c t : Card) : GameState × Except String Unit :=
  if c.point_value = t.point_value ∧ c.suit_value ≤ t.suit_value then
    (s, .error "Invalid scuttle: Cannot scuttle with a lower or equal suit of the same rank")
  else
    let s1 := mutateCard s c.id (Card.setPlayedBy (some s.turn))
    match extractById (hand s1 s.turn) c.id with
    | none => (s1, .error "Card not found on card player's hand")
    | some (live, rest) =>
      let s2 := setHand s1 s.turn rest
      let s3 := discardWithAttachments s2 live
      match t.played_by with
      | some tp =>
        match extractById (field s3 tp) t.id with
        | none => (s3, .error "Target card not found on target player's field")
        | some (tlive, trest) =>
          let s4 := setField s3 tp trest
          (discardWithAttachments s4 tlive, .ok ())
      | none =>
        let s4 := mutateCard s3 t.id Card.clearedForDiscard
        (discardWithAttachments s4 t, .ok ())

/-- `GameState.play_face_card(card, target)`: Kings and Queens go to the
current field (with an instant-win recheck for Kings); Jacks require a
point-card target, no opposing Queen, and are appended to the target's
attachments. -/
def play_face_card (s : GameState) (c : Card) (target : Option Card) :
    GameState × Except String Bool :=
  if c.rank = .jack then
    match target with
    | none => (s, .error "Target card is required for playing Jack")
    | some t =>
      if ¬ t.purpose = some .points then
        (s, .error "Target card must be a point card for playing Jack")
      else
        let opponent := (s.turn + 1) % 2
        if (field s opponent).any (fun x => x.rank == .queen) then
          (s, .error "Cannot play jack as face card if opponent has a queen on their field")
        else if ¬ (t.is_point_card = true ∧ t.purpose = some .points) then
          (s, .error "Jack can only be played on point cards")
        else if ¬ memberById (hand s s.turn) c.id then
          (s, .error "Can only play cards from your hand")
        else
          match extractById (hand s s.turn) c.id with
          | none => (s, .error "Can only play cards from your hand")
          | some (live, rest) =>
            let j := (live.setPurpose (some .jack)).setPlayedBy (some s.turn)
            let s1 := setHand s s.turn rest
            let s2 := mutateCard s1 t.id (Card.appendAttachment j)
            if (winner s2).isSome then (s2, .ok true) else (s2, .ok false)
  else
    match extractById (hand s s.turn) c.id with
    | none => (s, .error "Can only play cards from your hand")
    | some (live, rest) =>
      let c' := (live.setPurpose (some .face_card)).setPlayedBy (some s.turn)
      let s1 := setHand s s.turn rest
      let s2 := setField s1 s.turn (field s1 s.turn ++ [c'])
      if c.rank = .king ∧ is_winner s2 s.turn = true then
        ({ s2 with status := some "win" }, .ok true)
      else (s2, .ok false)

/-! Helper lemmas about the identity-model primitives. -/

/-- A successful identity test yields a successful removal. -/
theorem extractById_isSome_of_member {l : List Card} {cid : Nat}
    (h : memberById l cid = true) :
    ∃ lv rest, extractById l cid = some (lv, rest) := by
  induction l with
  | nil => simp [memberById] at h
  | cons a t ih =>
    rcases hb : (a.id == cid) with _ | _
    · have ht : memberById t cid = true := by
        simp only [memberById, List.any_cons, hb, Bool.false_or] at h
        exact h
      obtain ⟨lv, rest, hrec⟩ := ih ht
      exact ⟨lv, a :: rest, by simp [extractById, hb, hrec]⟩
    · exact ⟨a, t, by simp [extractById, hb]⟩

/-- Mapping an id-preserving function over a list preserves identity
membership. -/
theorem memberById_map_id_preserving {l : List Card} {cid cid' : Nat}
    {f : Card → Card} (hf : ∀ x, (f x).id = x.id) :
    memberById (l.map (fun x => if x.id == cid then f x else x)) cid'
      = memberById l cid' := by
  induction l with
  | nil => rfl
  | cons a t ih =>
    simp only [memberById, List.map_cons, List.any_cons] at *
    rw [ih]
    by_cases ha : a.id == cid
    · simp [ha, hf]
    · simp [ha]

/-- `hand` after `mutateCard` is the pointwise by-id update. -/
theorem hand_mutateCard (s : GameState) (cid : Nat) (f : Card → Card)
    (p : Nat) :
    hand (mutateCard s cid f) p
      = (hand s p).map (fun x => if x.id == cid then f x else x) := by
  cases p <;> rfl

/-- `field` after `mutateCard` is the pointwise by-id update. -/
theorem field_mutateCard (s : GameState) (cid : Nat) (f : Card → Card)
    (p : Nat) :
    field (mutateCard s cid f) p
      = (field s p).map (fun x => if x.id == cid then f x else x) := by
  cases p <;> rfl

/-- `field` is unchanged by `setHand`. -/
theorem field_setHand (s : GameState) (p q : Nat) (l : List Card) :
    field (setHand s p l) q = field s q := by
  cases p <;> cases q <;> rfl

/-- `field` is unchanged by appending to the discard pile. -/
theorem field_addDiscardMany (s : GameState) (l : List Card) (q : Nat) :
    field (addDiscardMany s l) q = field s q := by
  cases q <;> rfl

/-- `turn` is stable under the container helpers. -/
theorem turn_mutateCard (s : GameState) (cid : Nat) (f : Card → Card) :
    (mutateCard s cid f).turn = s.turn := rfl

/-- `turn` is stable under `setHand`. -/
theorem turn_setHand (s : GameState) (p : Nat) (l : List Card) :
    (setHand s p l).turn = s.turn := by
  cases p <;> rfl

/-! C8: the scuttle comparison. -/

/-- A state where player 0 may scuttle the opponent's Ten with a Five. -/
def stateLowScuttle : GameState :=
  { emptyState with
    hand0 := [.mk 41 .hearts .five none none []]
    field1 := [.mk 42 .clubs .ten (some 1) (some .points) []] }

/-- C8 counterexample: scuttling a Ten (rank 10) with a Five (rank 5) is
not scuttle-comparable, yet `scuttle` succeeds: the only comparison the
source makes rejects equal point values with a non-higher suit. -/
theorem scuttle_low_rank_succeeds_counterexample :
    (scuttle stateLowScuttle (.mk 41 .hearts .five none none [])
        (.mk 42 .clubs .ten (some 1) (some .points) [])).2 = .ok () ∧
    Card.point_value (.mk 41 .hearts .five none none []) <
      Card.point_value (.mk 42 .clubs .ten (some 1) (some .points) []) :=
  ⟨rfl, by decide⟩

/-- C8 amended: with the card in the current hand and the target on its
player's field, `scuttle` raises exactly when the pair has equal point
value and the card's suit value is not higher; every other pair --
including a card of strictly lower rank -- succeeds. -/
theorem scuttle_error_iff_equal_rank_lower_suit (s : GameState)
    (c t : Card) (q : Nat)
    (hc : memberById (hand s s.turn) c.id = true)
    (htp : t.played_by = some q)
    (htf : memberById (field s q) t.id = true) :
    (scuttle s c t).2 =
      if c.point_value = t.point_value ∧ c.suit_value ≤ t.suit_value then
        .error "Invalid scuttle: Cannot scuttle with a lower or equal suit of the same rank"
      else .ok () := by
  unfold scuttle
  split_ifs with hcmp
  · rfl
  · have hmem : memberById
        (hand (mutateCard s c.id (Card.setPlayedBy (some s.turn))) s.turn)
        c.id = true := by
      rw [hand_mutateCard,
        memberById_map_id_preserving (fun x => by cases x <;> rfl)]
      exact hc
    obtain ⟨lv, rest, hx⟩ := extractById_isSome_of_member hmem
    have hfmem : memberById
        (field (discardWithAttachments
          (setHand (mutateCard s c.id (Card.setPlayedBy (some s.turn)))
            s.turn rest) lv) q) t.id = true := by
      unfold discardWithAttachments
      rw [field_addDiscardMany, field_setHand, field_mutateCard,
        memberById_map_id_preserving (fun x => by cases x <;> rfl)]
      exact htf
    obtain ⟨tlv, trest, htx⟩ := extractById_isSome_of_member hfmem
    simp only [hx, htp, htx]

/-- Witness for `scuttle_error_iff_equal_rank_lower_suit` at the
Five-versus-Ten state. -/
theorem scuttle_error_iff_equal_rank_lower_suit_witness :
    memberById (hand stateLowScuttle stateLowScuttle.turn) 41 = true ∧
    (Card.mk 42 .clubs .ten (some 1) (some .points) []).played_by = some 1 ∧
    memberById (field stateLowScuttle 1) 42 = true ∧
    (scuttle stateLowScuttle (.mk 41 .hearts .five none none [])
        (.mk 42 .clubs .ten (some 1) (some .points) [])).2 =
      if (Card.mk 41 .hearts .five none none []).point_value =
           (Card.mk 42 .clubs .ten (some 1) (some .points) []).point_value ∧
         (Card.mk 41 .hearts .five none none []).suit_value ≤
           (Card.mk 42 .clubs .ten (some 1) (some .points) []).suit_value then
        .error "Invalid scuttle: Cannot scuttle with a lower or equal suit of the same rank"
      else .ok () :=
  ⟨rfl, rfl, rfl,
   scuttle_error_iff_equal_rank_lower_suit stateLowScuttle _ _ 1 rfl rfl rfl⟩

/-! The one-off effects (`GameState.apply_one_off_effect`).  The Three
and Four effects consult the interactive input helper
(`get_interactive_input`, blocking terminal I/O) or the external AI
adversary.  The interactive prompts are modelled by an oracle: a list of
the index values the prompt would return, consumed in order.  The
external-AI branches (guarded by `use_ai` and the presence of
`ai_player`) call an out-of-scope LLM/RL policy and are modelled as an
error; no theorem depends on them. -/

/-- A step of a fallible, input-consuming operation. -/
structure Step (α : Type) where
  st : GameState
  inputs : List Nat
  res : Except String α

/-- One call of the interactive input helper: consume the next oracle
value (0 when the oracle is exhausted). -/
def takeInput : List Nat → Nat × List Nat
  | [] => (0, [])
  | i :: r => (i, r)

/-- Wrap an input-free fallible result as a `Step`. -/
def wrapStep (r : GameState × Except String Unit) (inputs : List Nat) :
    Step Unit :=
  ⟨r.1, inputs, r.2⟩

/-- The Ace one-off: for each field in order, every card with
`is_point_card` and purpose `Points` is removed and sent, with its
attachments, cleared to the discard pile. -/
def applyAceEffect (s : GameState) : GameState :=
  let pred : Card → Bool :=
    fun c => c.is_point_card && c.purpose == some .points
  let clean : Card → List Card := fun pc =>
    pc.clearedForDiscard :: pc.attachments.map Card.clear_player_info
  let s1 := addDiscardMany { s with field0 := s.field0.filter (fun c => !pred c) }
    ((s.field0.filter pred).flatMap clean)
  addDiscardMany { s1 with field1 := s1.field1.filter (fun c => !pred c) }
    ((s1.field1.filter pred).flatMap clean)

/-- The Six one-off: for each field in order, every card with
`is_face_card` and purpose `FaceCard` is removed and sent cleared to the
discard pile (its attachment entries are not separately discarded). -/
def applySixEffect (s : GameState) : GameState :=
  let pred : Card → Bool :=
    fun c => c.is_face_card && c.purpose == some .face_card
  let s1 := addDiscardMany { s with field0 := s.field0.filter (fun c => !pred c) }
    ((s.field0.filter pred).map Card.clear_player_info)
  addDiscardMany { s1 with field1 := s1.field1.filter (fun c => !pred c) }
    ((s1.field1.filter pred).map Card.clear_player_info)

/-- The `ai_player is None` fallback of the Four effect: pop the front
of the opponent's hand into the discard pile, cleared, `n` times,
skipping when the hand is exhausted. -/
def fourFallback (opp : Nat) : GameState → Nat → GameState
  | s, 0 => s
  | s, n + 1 =>
    match hand s opp with
    | [] => fourFallback opp s n
    | ch :: rest =>
      fourFallback opp (addDiscard (setHand s opp rest) ch.clear_player_info) n

/-- The interactive loop of the Four effect: `n` prompts; each valid
index removes the chosen card from the working copy and from the
opponent's hand (raising if the identity lookup fails) and discards it
cleared; an invalid index only consumes the input. -/
def fourInteractive (opp : Nat) :
    GameState → List Card → Nat → List Nat → Step Unit
  | s, _, 0, inputs => ⟨s, inputs, .ok ()⟩
  | s, remaining, n + 1, inputs =>
    if remaining.isEmpty then ⟨s, inputs, .ok ()⟩
    else
      let (index, rest) := takeInput inputs
      match remaining.get? index with
      | some chosen =>
        match extractById (hand s opp) chosen.id with
        | none => ⟨s, rest, .error "ValueError: list.remove(x): x not in list"⟩
        | some (live, hrest) =>
          fourInteractive opp
            (addDiscard (setHand s opp hrest) live.clear_player_info)
            (remaining.eraseIdx index) n rest
      | none => fourInteractive opp s remaining n rest

/-- `GameState.apply_one_off_effect(card)`, dispatching on the card's
rank; ranks without a branch (Two, Seven-King) are a no-op. -/
def apply_one_off_effect (s : GameState) (c : Card) (inputs : List Nat) :
    Step Unit :=
  match c.rank with
  | .ace => ⟨applyAceEffect s, inputs, .ok ()⟩
  | .three =>
    if s.discard_pile.isEmpty then ⟨s, inputs, .ok ()⟩
    else if s.use_ai && s.turn == 1 then
      if s.ai_player then ⟨s, inputs, .error "external AI choice (out of scope)"⟩
      else
        match s.discard_pile with
        | [] => ⟨s, inputs, .ok ()⟩
        | ch :: rest =>
          ⟨setHand { s with discard_pile := rest } s.turn
            (hand s s.turn ++ [ch]), inputs, .ok ()⟩
    else
      let (index, rest) := takeInput inputs
      match s.discard_pile.get? index with
      | some chosen =>
        ⟨setHand { s with discard_pile := s.discard_pile.eraseIdx index }
          s.turn (hand s s.turn ++ [chosen.clear_player_info]), rest, .ok ()⟩
      | none => ⟨s, rest, .ok ()⟩
  | .four =>
    let opponent := (s.turn + 1) % 2
    if (hand s opponent).length == 0 then ⟨s, inputs, .ok ()⟩
    else if s.use_ai && s.current_action_player == opponent then
      if s.ai_player then ⟨s, inputs, .error "external AI choice (out of scope)"⟩
      else ⟨fourFallback opponent s (min 2 (hand s opponent).length), inputs, .ok ()⟩
    else
      fourInteractive opponent s (hand s opponent)
        (min 2 (hand s opponent).length) inputs
  | .five =>
    if (hand s s.turn).length ≤ 6 then wrapStep (draw_card s 2) inputs
    else if (hand s s.turn).length == 7 then wrapStep (draw_card s 1) inputs
    else ⟨s, inputs, .ok ()⟩
  | .six => ⟨applySixEffect s, inputs, .ok ()⟩
  | _ => ⟨s, inputs, .ok ()⟩

/-! C9: the Five one-off draws `min 2 (8 - hand size)` cards. -/

/-- `hand` after `setHand` on the same slot. -/
theorem hand_setHand_same (s : GameState) (p : Nat) (l : List Card) :
    hand (setHand s p l) p = l := by
  cases p <;> rfl

/-- `setHand` on the same slot twice keeps the second value. -/
theorem setHand_setHand (s : GameState) (p : Nat) (a b : List Card) :
    setHand (setHand s p a) p b = setHand s p b := by
  cases p <;> rfl

/-- Writing back the current hand is the identity. -/
theorem setHand_self (s : GameState) (p : Nat) :
    setHand s p (hand s p) = s := by
  cases p <;> rfl

/-- `deck` is unchanged by `setHand`. -/
theorem deck_setHand (s : GameState) (p : Nat) (l : List Card) :
    (setHand s p l).deck = s.deck := by
  cases p <;> rfl

/-- Updating the deck commutes with `setHand`. -/
theorem setHand_deck_comm (t : GameState) (p : Nat) (h X : List Card) :
    { setHand t p h with deck := X } = setHand { t with deck := X } p h := by
  cases p <;> rfl

/-- The drawing loop moves the last `n` deck cards, in pop order, to the
current hand, when the deck is large enough. -/
theorem drawLoop_spec : ∀ (n : Nat) (s : GameState), n ≤ s.deck.length →
    drawLoop s n =
      (setHand { s with deck := s.deck.take (s.deck.length - n) } s.turn
        (hand s s.turn ++ s.deck.reverse.take n), .ok ()) := by
  intro n
  induction n with
  | zero =>
    intro s _
    simp only [drawLoop, Nat.sub_zero, List.take_length, List.take_zero,
      List.append_nil]
    rw [setHand_self]
  | succ n ih =>
    intro s hn
    have hne : s.deck ≠ [] := by
      intro h
      rw [h] at hn
      simp at hn
    have hrev : s.deck.reverse = s.deck.getLast hne :: s.deck.dropLast.reverse := by
      conv_lhs => rw [← List.dropLast_append_getLast hne]
      rw [List.reverse_append, List.reverse_singleton, List.singleton_append]
    have hstep := ih (setHand { s with deck := s.deck.dropLast } s.turn
      (hand s s.turn ++ [s.deck.getLast hne]))
      (by rw [deck_setHand]; simp only [List.length_dropLast]; omega)
    have hX : s.deck.dropLast.take (s.deck.dropLast.length - n)
        = s.deck.take (s.deck.length - (n + 1)) := by
      rw [List.length_dropLast, List.dropLast_eq_take, List.take_take,
        min_eq_left (by omega)]
      congr 1
      omega
    have hH : (hand s s.turn ++ [s.deck.getLast hne]) ++
          s.deck.dropLast.reverse.take n
        = hand s s.turn ++ s.deck.reverse.take (n + 1) := by
      rw [hrev, List.take_succ_cons, List.append_assoc, List.singleton_append]
    rw [drawLoop, List.getLast?_eq_getLast_of_ne_nil hne]
    dsimp only
    rw [hstep, turn_setHand, deck_setHand, hand_setHand_same, hX, hH]
    obtain ⟨h0, h1, f0, f1, dk, dp, tn, cap, stt, r2, r1, r3, oc, ua, ap, ov, la⟩ := s
    cases tn <;> rfl

/-- C9: when a Five one-off resolves, exactly `min 2 (8 - |hand[turn]|)`
cards move from the top of the deck to the current hand -- 2 when the
hand has 6 or fewer cards, 1 when it has exactly 7, and 0 when it has 8
or more (the source's three-way branch realises exactly this minimum,
and `draw_card`'s hand-full guard never fires on these counts). -/
theorem five_one_off_draws_min (s : GameState) (c : Card) (inputs : List Nat)
    (hr : c.rank = .five)
    (hd : min 2 (8 - (hand s s.turn).length) ≤ s.deck.length) :
    apply_one_off_effect s c inputs =
      ⟨setHand
         { s with
           deck := s.deck.take (s.deck.length - min 2 (8 - (hand s s.turn).length)) }
         s.turn
         (hand s s.turn ++
           s.deck.reverse.take (min 2 (8 - (hand s s.turn).length))),
       inputs, .ok ()⟩ := by
  unfold apply_one_off_effect
  rw [hr]
  dsimp only
  by_cases h6 : (hand s s.turn).length ≤ 6
  · have hmin : min 2 (8 - (hand s s.turn).length) = 2 := by omega
    rw [hmin] at hd ⊢
    rw [if_pos h6]
    unfold wrapStep draw_card
    rw [if_neg (by simp only [beq_iff_eq]; omega), drawLoop_spec 2 s hd]
  · rw [if_neg h6]
    by_cases h7 : (hand s s.turn).length = 7
    · have hmin : min 2 (8 - (hand s s.turn).length) = 1 := by omega
      rw [hmin] at hd ⊢
      rw [if_pos (by simp [h7])]
      unfold wrapStep draw_card
      rw [if_neg (by simp only [beq_iff_eq]; omega), drawLoop_spec 1 s hd]
    · have hmin : min 2 (8 - (hand s s.turn).length) = 0 := by omega
      rw [hmin]
      rw [if_neg (by simp only [beq_iff_eq]; omega)]
      rw [Nat.sub_zero, List.take_length, List.take_zero, List.append_nil,
        setHand_self]

/-- A state with an empty hand and a two-card deck, for the Five
witness. -/
def stateTwoDeck : GameState :=
  { emptyState with deck := [.mk 62 .clubs .ace none none [],
                             .mk 63 .clubs .two none none []] }

/-- Witness for `five_one_off_draws_min`: an empty hand and a two-card
deck. -/
theorem five_one_off_draws_min_witness :
    (Card.mk 61 .hearts .five none none []).rank = .five ∧
    min 2 (8 - (hand stateTwoDeck stateTwoDeck.turn).length) ≤
      stateTwoDeck.deck.length ∧
    apply_one_off_effect stateTwoDeck (.mk 61 .hearts .five none none []) [] =
      ⟨setHand
         { stateTwoDeck with
           deck := stateTwoDeck.deck.take (stateTwoDeck.deck.length - min 2 (8 - (hand stateTwoDeck stateTwoDeck.turn).length)) }
         stateTwoDeck.turn
         (hand stateTwoDeck stateTwoDeck.turn ++
           stateTwoDeck.deck.reverse.take
             (min 2 (8 - (hand stateTwoDeck stateTwoDeck.turn).length))),
       [], .ok ()⟩ :=
  ⟨rfl, by decide,
   five_one_off_draws_min stateTwoDeck _ [] rfl (by decide)⟩

/-! C5: the Three one-off. -/

/-- A Three used as a one-off. -/
def threeHearts : Card := .mk 51 .hearts .three none none []

/-- A card sitting in the discard pile. -/
def discardedSeven : Card := .mk 52 .clubs .seven (some 1) none []

/-- A state with a non-empty discard pile and no AI. -/
def stateThreeDiscard : GameState :=
  { emptyState with discard_pile := [discardedSeven] }

/-- `resolving_three` is unchanged by `setHand`. -/
theorem resolving_three_setHand (s : GameState) (p : Nat) (l : List Card) :
    (setHand s p l).resolving_three = s.resolving_three := by
  cases p <;> rfl

/-- C5 counterexample: resolving an uncountered Three with a non-empty
discard pile takes the interactively chosen card inside the resolver
itself: `resolving_three` stays `false` and the discard card moves to
the hand immediately, with no follow-up `TakeFromDiscard` action (no
such action type exists in the source). -/
theorem three_effect_immediate_counterexample :
    (apply_one_off_effect stateThreeDiscard threeHearts [0]).st.resolving_three
        = false ∧
    (apply_one_off_effect stateThreeDiscard threeHearts [0]).st.discard_pile
        = [] ∧
    hand (apply_one_off_effect stateThreeDiscard threeHearts [0]).st 0
        = [discardedSeven.clear_player_info] ∧
    (apply_one_off_effect stateThreeDiscard threeHearts [0]).res = .ok () :=
  ⟨rfl, rfl, rfl, rfl⟩

/-- C5 amended: without AI, the Three effect is a no-op on an empty
discard pile; otherwise it immediately (inside the resolver) removes the
card at the prompted index from the discard pile, clears it, and appends
it to `hands[turn]`; `resolving_three` is never modified. -/
theorem three_effect_spec (s : GameState) (c : Card) (inputs : List Nat)
    (hr : c.rank = .three) (hai : s.use_ai = false) :
    (s.discard_pile = [] → apply_one_off_effect s c inputs = ⟨s, inputs, .ok ()⟩) ∧
    (∀ i rest chosen, inputs = i :: rest →
      s.discard_pile.get? i = some chosen →
      apply_one_off_effect s c inputs =
        ⟨setHand { s with discard_pile := s.discard_pile.eraseIdx i } s.turn
           (hand s s.turn ++ [chosen.clear_player_info]), rest, .ok ()⟩) ∧
    (apply_one_off_effect s c inputs).st.resolving_three = s.resolving_three := by
  unfold apply_one_off_effect
  rw [hr]
  dsimp only
  refine ⟨?_, ?_, ?_⟩
  · intro hemp
    rw [if_pos (by simp [hemp])]
  · intro i rest chosen hin hget
    have hne : s.discard_pile.isEmpty = false := by
      cases hdp : s.discard_pile
      · rw [hdp] at hget; simp at hget
      · simp [hdp]
    rw [if_neg (by simp [hne]), if_neg (by simp [hai]), hin]
    dsimp [takeInput]
    rw [hget]
  · by_cases hemp : s.discard_pile.isEmpty = true
    · rw [if_pos hemp]
    · rw [if_neg hemp, if_neg (by simp [hai])]
      rcases inputs with _ | ⟨i, rest⟩ <;> dsimp [takeInput] <;>
        rcases s.discard_pile.get? _ with _ | ch <;>
        simp [resolving_three_setHand]

/-- Witness for `three_effect_spec` at the one-card-discard state. -/
theorem three_effect_spec_witness :
    threeHearts.rank = .three ∧ stateThreeDiscard.use_ai = false ∧
    apply_one_off_effect stateThreeDiscard threeHearts [0] =
      ⟨setHand { stateThreeDiscard with
          discard_pile := stateThreeDiscard.discard_pile.eraseIdx 0 }
        stateThreeDiscard.turn
        (hand stateThreeDiscard stateThreeDiscard.turn ++
          [discardedSeven.clear_player_info]), [], .ok ()⟩ :=
  ⟨rfl, rfl,
   (three_effect_spec stateThreeDiscard threeHearts [0] rfl rfl).2.1
     0 [] discardedSeven rfl rfl⟩

/-! `GameState.play_one_off` and `GameState.update_state`. -/

/-- The uncountered-resolution branch of `play_one_off` (the opponent
did not counter, so the one-off resolves): remove the card from the
current hand if still there, set its purpose to `OneOff`, apply the
effect, clear the card, and append it to the discard pile unless it is
already there.  An error raised by the effect propagates, leaving the
mutations made so far in place. -/
def resolveUncountered (s : GameState) (c : Card) (inputs : List Nat) :
    Step Unit :=
  let pair : Card × GameState :=
    match extractById (hand s s.turn) c.id with
    | some (lv, rest) => (lv, setHand s s.turn rest)
    | none => (c, s)
  let live := pair.1.setPurpose (some .one_off)
  let s1 := mutateCard pair.2 c.id (Card.setPurpose (some .one_off))
  match apply_one_off_effect s1 live inputs with
  | ⟨s2, in2, .ok ()⟩ =>
    let s3 := mutateCard s2 c.id Card.clear_player_info
    if memberById s3.discard_pile c.id then ⟨s3, in2, .ok ()⟩
    else ⟨addDiscard s3 live.clear_player_info, in2, .ok ()⟩
  | ⟨s2, in2, .error e⟩ => ⟨s2, in2, .error e⟩

/-- The counter-accepted branch of `play_one_off` (the original player
resolves after being countered): the one-off card goes to the discard
pile without its effect, and its player info is cleared. -/
def resolveCountered (s : GameState) (c : Card) : GameState :=
  let pair : Card × GameState :=
    match extractById (hand s s.turn) c.id with
    | some (lv, rest) => (lv, setHand s s.turn rest)
    | none => (c, s)
  let s1 := if memberById pair.2.discard_pile c.id then pair.2
            else addDiscard pair.2 pair.1
  mutateCard s1 c.id Card.clear_player_info

/-- `GameState.play_one_off(player, card, countered_with,
last_resolved_by)`.  The source first records `last_action_played_by`,
returns early on the initial play (`player == turn`, nothing else set),
then handles a counter (validating the Two, its purpose, and the
counterer's opponent's Queen before moving the counter card and the
countered card to the discard pile), and finally handles resolution.
The match below reproduces the source's three-way branch: a present
`countered_with` takes priority; with both optional arguments absent and
`player ≠ turn`, the source falls through to its final
`return True, None`. -/
def play_one_off (s0 : GameState) (player : Nat) (c : Card)
    (countered_with : Option Card) (last_resolved_by : Option Nat)
    (inputs : List Nat) : Step (Bool × Option Nat) :=
  let s := { s0 with last_action_played_by := some player }
  match countered_with with
  | some cw =>
    if cw.point_value ≠ 2 then ⟨s, inputs, .error "Counter must be a 2"⟩
    else if cw.purpose ≠ some .counter then
      ⟨s, inputs, .error "Counter must be with a purpose of counter"⟩
    else
      let queenBlock :=
        match cw.played_by with
        | some cp => (field s ((cp + 1) % 2)).any (fun x => x.rank == .queen)
        | none => false
      if queenBlock = true then
        ⟨s, inputs,
         .error "Cannot counter with a two if opponent has a queen on their field"⟩
      else
        let s1 :=
          match cw.played_by with
          | some pb =>
            match extractById (hand s pb) cw.id with
            | some (live, rest) =>
              mutateCard (addDiscard (setHand s pb rest) live) cw.id
                Card.clear_player_info
            | none => s
          | none => s
        let pair : Card × GameState :=
          match extractById (hand s1 s1.turn) c.id with
          | some (lv, rest) => (lv, setHand s1 s1.turn rest)
          | none => (c, s1)
        let s2 := if memberById pair.2.discard_pile c.id then pair.2
                  else mutateCard (addDiscard pair.2 pair.1) c.id
                    Card.clear_player_info
        ⟨{ s2 with last_action_played_by := cw.played_by }, inputs,
         .ok (false, cw.played_by)⟩
  | none =>
    match last_resolved_by with
    | some lrb =>
      if lrb ≠ s.turn then
        match resolveUncountered s c inputs with
        | ⟨s', in', .ok ()⟩ => ⟨s', in', .ok (true, none)⟩
        | ⟨s', in', .error e⟩ => ⟨s', in', .error e⟩
      else ⟨resolveCountered s c, inputs, .ok (true, none)⟩
    | none =>
      if player = s.turn then ⟨s, inputs, .ok (false, none)⟩
      else ⟨s, inputs, .ok (true, none)⟩

/-- `GameState.update_state(action)`, branch by branch.  The returned
triple is `(turn_finished, should_stop, winner)`.  The source's
branches with a missing required card/target log an error and return
`(True, True, None)` without raising. -/
def update_state (s : GameState) (action : Action) (inputs : List Nat) :
    Step (Bool × Bool × Option Nat) :=
  match action.action_type with
  | .draw =>
    match draw_card s 1 with
    | (s', .ok ()) => ⟨s', inputs, .ok (true, false, none)⟩
    | (s', .error e) => ⟨s', inputs, .error e⟩
  | .points =>
    match action.card with
    | none => ⟨s, inputs, .ok (true, true, none)⟩
    | some c =>
      match play_points s c with
      | (s', .ok true) => ⟨s', inputs, .ok (true, true, winner s')⟩
      | (s', .ok false) => ⟨s', inputs, .ok (true, false, none)⟩
      | (s', .error e) => ⟨s', inputs, .error e⟩
  | .scuttle =>
    match action.card, action.target with
    | some c, some t =>
      match scuttle s c t with
      | (s', .ok ()) => ⟨s', inputs, .ok (true, false, winner s')⟩
      | (s', .error e) => ⟨s', inputs, .error e⟩
    | _, _ => ⟨s, inputs, .ok (true, true, none)⟩
  | .one_off =>
    match action.card with
    | none => ⟨s, inputs, .ok (true, true, none)⟩
    | some c =>
      match play_one_off s s.turn c none none inputs with
      | ⟨s', in', .ok (true, _)⟩ =>
        ⟨s', in', .ok (true, (winner s').isSome, winner s')⟩
      | ⟨s', in', .ok (false, _)⟩ =>
        ⟨{ s' with
           resolving_one_off := true
           one_off_card_to_counter := some c }, in', .ok (false, false, none)⟩
      | ⟨s', in', .error e⟩ => ⟨s', in', .error e⟩
  | .counter =>
    match action.card, action.target with
    | some cw, some tgt =>
      let s1 := mutateCard s cw.id (Card.setPurpose (some .counter))
      let cw' := cw.setPurpose (some .counter)
      let s2 :=
        match cw'.played_by with
        | some pb => { s1 with current_action_player := pb }
        | none => s1
      match play_one_off s2 s2.turn tgt (some cw') none inputs with
      | ⟨s', in', .ok (true, _)⟩ =>
        ⟨s', in', .ok (true, (winner s').isSome, winner s')⟩
      | ⟨s', in', .ok (false, _)⟩ => ⟨s', in', .ok (false, false, none)⟩
      | ⟨s', in', .error e⟩ => ⟨s', in', .error e⟩
    | _, _ => ⟨s, inputs, .ok (true, true, none)⟩
  | .resolve =>
    match action.target with
    | none => ⟨s, inputs, .ok (true, true, none)⟩
    | some tgt =>
      match play_one_off s s.turn tgt none (some action.played_by) inputs with
      | ⟨s', in', .ok (true, _)⟩ =>
        ⟨s', in', .ok (true, (winner s').isSome, winner s')⟩
      | ⟨s', in', .ok (false, _)⟩ => ⟨s', in', .ok (false, false, none)⟩
      | ⟨s', in', .error e⟩ => ⟨s', in', .error e⟩
  | .face_card =>
    match action.card with
    | none => ⟨s, inputs, .ok (true, true, none)⟩
    | some c =>
      match play_face_card s c action.target with
      | (s', .ok true) => ⟨s', inputs, .ok (true, true, some s.turn)⟩
      | (s', .ok false) => ⟨s', inputs, .ok (true, false, none)⟩
      | (s', .error e) => ⟨s', inputs, .error e⟩
  | .jack =>
    match action.card, action.target with
    | some c, some t =>
      match play_face_card s c (some t) with
      | (s', .ok true) => ⟨s', inputs, .ok (true, true, some s.turn)⟩
      | (s', .ok false) => ⟨s', inputs, .ok (true, false, none)⟩
      | (s', .error e) => ⟨s', inputs, .error e⟩
    | _, _ => ⟨s, inputs, .ok (true, true, none)⟩
  | _ => ⟨s, inputs, .ok (false, false, none)⟩

/-! C3: failed applies are not rolled back. -/

/-- `setPurpose` does not change `played_by`. -/
theorem Card.played_by_setPurpose (v : Option Purpose) (c : Card) :
    (Card.setPurpose v c).played_by = c.played_by := by
  cases c
  rfl

/-- `setPurpose` does not change the point value. -/
theorem Card.point_value_setPurpose (v : Option Purpose) (c : Card) :
    (Card.setPurpose v c).point_value = c.point_value := by
  cases c
  rfl

/-- An Ace pending as a one-off. -/
def aceChain : Card := .mk 72 .hearts .ace none none []

/-- A Three in player 1's hand, offered (illegally) as a counter. -/
def threeSpades : Card := .mk 71 .spades .three none none []

/-- A state mid one-off resolution where player 1 holds only a Three. -/
def stateBadCounter : GameState :=
  { emptyState with
    hand0 := [aceChain]
    hand1 := [threeSpades]
    resolving_one_off := true
    one_off_card_to_counter := some aceChain
    current_action_player := 1 }

/-- C3 counterexample: countering with a Three raises
"Counter must be a 2", but the card's `purpose` facet was already set to
`Counter` inside the hand before the raise -- the failed apply is not a
no-op. -/
theorem failed_apply_not_noop_counterexample :
    (update_state stateBadCounter
        { action_type := .counter, played_by := 1, card := some threeSpades,
          target := some aceChain } []).res = .error "Counter must be a 2" ∧
    (update_state stateBadCounter
        { action_type := .counter, played_by := 1, card := some threeSpades,
          target := some aceChain } []).st.hand1.map Card.purpose
      = [some .counter] ∧
    stateBadCounter.hand1.map Card.purpose = [none] :=
  ⟨rfl, rfl, rfl⟩

/-- C3 amended: errors propagate to the caller, but mutations performed
before the raise persist (there is no rollback).  In particular a
Counter action whose card is not a Two fails after having set that
card's purpose to `Counter` in every container holding it. -/
theorem failed_counter_leaves_mutation (s : GameState) (cw tgt : Card)
    (p : Nat) (inputs : List Nat)
    (hpv : cw.point_value ≠ 2) (hpb : cw.played_by = none) :
    update_state s { action_type := .counter, played_by := p,
                     card := some cw, target := some tgt } inputs =
      ⟨{ mutateCard s cw.id (Card.setPurpose (some .counter)) with
         last_action_played_by := some s.turn },
       inputs, .error "Counter must be a 2"⟩ := by
  unfold update_state
  dsimp only
  have h1 : (cw.setPurpose (some .counter)).played_by = none := by
    rw [Card.played_by_setPurpose, hpb]
  rw [h1]
  unfold play_one_off
  dsimp only
  rw [if_pos (by rw [Card.point_value_setPurpose]; exact hpv)]
  rfl

/-- Witness for `failed_counter_leaves_mutation` at the Three-counter
state. -/
theorem failed_counter_leaves_mutation_witness :
    threeSpades.point_value ≠ 2 ∧ threeSpades.played_by = none ∧
    update_state stateBadCounter
        { action_type := .counter, played_by := 1, card := some threeSpades,
          target := some aceChain } [] =
      ⟨{ mutateCard stateBadCounter threeSpades.id
           (Card.setPurpose (some .counter)) with
         last_action_played_by := some stateBadCounter.turn },
       [], .error "Counter must be a 2"⟩ :=
  ⟨by decide, rfl,
   failed_counter_leaves_mutation stateBadCounter threeSpades aceChain 1 []
     (by decide) rfl⟩

/-! C7: attribution of a simultaneous win. -/

/-- Player 1 is about to reach 21 with a Ten while player 0 already sits
at 21. -/
def stateBothWin : GameState :=
  { emptyState with
    turn := 1
    current_action_player := 1
    hand1 := [.mk 81 .diamonds .ten none none []]
    field0 := [.mk 82 .spades .ten (some 0) (some .points) [],
               .mk 83 .hearts .ten (some 0) (some .points) [],
               .mk 84 .clubs .ace (some 0) (some .points) []]
    field1 := [.mk 85 .diamonds .seven (some 1) (some .points) [],
               .mk 86 .clubs .four (some 1) (some .points) []] }

/-- C7 counterexample: player 1 plays the winning Points card while
player 0 also satisfies `is_winner`; `update_state` reports winner 0
(via `winner()`, which checks player 0 first), not the actor. -/
theorem points_win_not_actor_counterexample :
    stateBothWin.turn = 1 ∧
    (update_state stateBothWin
        { action_type := .points, played_by := 1,
          card := some (.mk 81 .diamonds .ten none none []) } []).res
      = .ok (true, true, some 0) ∧
    is_winner (update_state stateBothWin
        { action_type := .points, played_by := 1,
          card := some (.mk 81 .diamonds .ten none none []) } []).st 0
      = true ∧
    is_winner (update_state stateBothWin
        { action_type := .points, played_by := 1,
          card := some (.mk 81 .diamonds .ten none none []) } []).st 1
      = true :=
  ⟨rfl, rfl, rfl, rfl⟩

/-- C7 amended: a winning FaceCard or Jack action reports the actor
(`self.turn`) as winner, but a winning Points action reports
`winner()`, which prefers player 0; when both players satisfy
`is_winner` after a Points play by player 1, the reported winner is 0,
not the actor. -/
theorem winner_attribution (s : GameState) (c t : Card) (p : Nat)
    (inputs : List Nat) :
    (∀ w, (update_state s { action_type := .face_card, played_by := p,
                            card := some c, target := some t } inputs).res
        = .ok (true, true, w) → w = some s.turn) ∧
    (∀ w, (update_state s { action_type := .face_card, played_by := p,
                            card := some c } inputs).res
        = .ok (true, true, w) → w = some s.turn) ∧
    (∀ w, (update_state s { action_type := .jack, played_by := p,
                            card := some c, target := some t } inputs).res
        = .ok (true, true, w) → w = some s.turn) ∧
    (∀ w, (update_state s { action_type := .points, played_by := p,
                            card := some c } inputs).res
        = .ok (true, true, w) →
      w = winner (update_state s { action_type := .points, played_by := p,
                                   card := some c } inputs).st) := by
  refine ⟨?_, ?_, ?_, ?_⟩
  · intro w hw
    unfold update_state at hw
    dsimp only at hw
    rcases hpf : play_face_card s c (some t) with ⟨s', r⟩
    rw [hpf] at hw
    cases r with
    | error e => simp at hw
    | ok b =>
      cases b
      · simp at hw
      · simp only [Except.ok.injEq, Prod.mk.injEq] at hw
        exact hw.2.2.symm
  · intro w hw
    unfold update_state at hw
    dsimp only at hw
    rcases hpf : play_face_card s c none with ⟨s', r⟩
    rw [hpf] at hw
    cases r with
    | error e => simp at hw
    | ok b =>
      cases b
      · simp at hw
      · simp only [Except.ok.injEq, Prod.mk.injEq] at hw
        exact hw.2.2.symm
  · intro w hw
    unfold update_state at hw
    dsimp only at hw
    rcases hpf : play_face_card s c (some t) with ⟨s', r⟩
    rw [hpf] at hw
    cases r with
    | error e => simp at hw
    | ok b =>
      cases b
      · simp at hw
      · simp only [Except.ok.injEq, Prod.mk.injEq] at hw
        exact hw.2.2.symm
  · intro w hw
    unfold update_state at hw ⊢
    dsimp only at hw ⊢
    rcases hpp : play_points s c with ⟨s', r⟩
    rw [hpp] at hw
    cases r with
    | error e => simp at hw
    | ok b =>
      cases b
      · simp at hw
      · simp only [Except.ok.injEq, Prod.mk.injEq] at hw
        dsimp only
        exact hw.2.2.symm

/-- A state where playing a second King wins on the spot. -/
def stateKingWin : GameState :=
  { emptyState with
    hand0 := [.mk 91 .diamonds .king none none []]
    field0 := [.mk 92 .spades .ten (some 0) (some .points) [],
               .mk 93 .hearts .king (some 0) (some .face_card) []] }

/-- A state where stealing a Seven with a Jack wins on the spot. -/
def stateJackWin : GameState :=
  { emptyState with
    hand0 := [.mk 94 .hearts .jack none none []]
    field0 := [.mk 95 .hearts .ten (some 0) (some .points) [],
               .mk 96 .diamonds .four (some 0) (some .points) []]
    field1 := [.mk 97 .spades .seven (some 1) (some .points) []] }

/-- Witness for `winner_attribution`: a winning King play, a winning
Jack play, and a winning Points play with both players at target. -/
theorem winner_attribution_witness :
    some 0 = some stateKingWin.turn ∧
    some 0 = some stateJackWin.turn ∧
    some 0 = winner (update_state stateBothWin
      { action_type := .points, played_by := 1,
        card := some (.mk 81 .diamonds .ten none none []) } []).st :=
  ⟨(winner_attribution stateKingWin (.mk 91 .diamonds .king none none [])
      threeSpades 0 []).2.1 (some 0) rfl,
   (winner_attribution stateJackWin (.mk 94 .hearts .jack none none [])
      (.mk 97 .spades .seven (some 1) (some .points) []) 0 []).2.2.1
      (some 0) rfl,
   (winner_attribution stateBothWin (.mk 81 .diamonds .ten none none [])
      threeSpades 1 []).2.2.2 (some 0) rfl⟩

/-! C2: the counter chain.  The driver loop in `main.py` applies the
one-off, then, while the apply reports the turn unfinished and
`resolving_one_off` is set, calls `next_player()` and feeds the next
chosen action (a Counter built from a Two in the current hand, or the
final Resolve), exactly as `get_legal_actions` constructs them. -/

/-- The one-off action as the base-phase enumerator builds it. -/
def oneOffAction (p : Nat) (c : Card) : Action :=
  { action_type := .one_off, played_by := p, card := some c }

/-- The counter action as the resolving-phase enumerator builds it:
played by `current_action_player`, targeting the pending one-off. -/
def counterActionOf (s : GameState) (two : Card) : Action :=
  { action_type := .counter, played_by := s.current_action_player,
    card := some two, target := s.one_off_card_to_counter }

/-- The resolve action as the resolving-phase enumerator builds it. -/
def resolveActionOf (s : GameState) : Action :=
  { action_type := .resolve, played_by := s.current_action_player,
    target := s.one_off_card_to_counter }

/-- Apply the given Counter actions in order, with the driver's
`next_player()` between steps (the driver toggles the actor after each
unfinished apply inside a one-off resolution). -/
def chainCounters : GameState → List Card → GameState × Except String Unit
  | q, [] => (q, .ok ())
  | q, two :: rest =>
    match update_state q (counterActionOf q two) [] with
    | ⟨q', _, .ok (false, _, _)⟩ => chainCounters (next_player q') rest
    | ⟨q', _, .ok (true, _, _)⟩ =>
      (q', .error "turn finished during counter chain")
    | ⟨q', _, .error e⟩ => (q', .error e)

/-- Open a counter chain: apply the OneOff action and let the driver
advance to the opponent. -/
def chainStart (s : GameState) (c : Card) : GameState × Except String Unit :=
  match update_state s (oneOffAction s.turn c) [] with
  | ⟨s1, _, .ok (false, _, _)⟩ => (next_player s1, .ok ())
  | ⟨s1, _, .ok (true, _, _)⟩ =>
    (s1, .error "turn finished on one-off play")
  | ⟨s1, _, .error e⟩ => (s1, .error e)

/-- The state just before the Resolve: one-off played, then the given
Counters. -/
def chainBeforeResolve (s : GameState) (c : Card) (twos : List Card) :
    GameState × Except String Unit :=
  match chainStart s c with
  | (s1, .ok ()) => chainCounters s1 twos
  | err => err

/-- A full chain: OneOff, the Counters, then the Resolve submitted by
whoever is `current_action_player` at that point. -/
def runChain (s : GameState) (c : Card) (twos : List Card)
    (inputs : List Nat) : Step (Bool × Bool × Option Nat) :=
  match chainBeforeResolve s c twos with
  | (sp, .ok ()) => update_state sp (resolveActionOf sp) inputs
  | (sp, .error e) => ⟨sp, inputs, .error e⟩

/-! Projection lemmas for the chain invariant. -/

/-- `current_action_player` is unchanged by `setHand`. -/
theorem cap_setHand (s : GameState) (p : Nat) (l : List Card) :
    (setHand s p l).current_action_player = s.current_action_player := by
  cases p <;> rfl

/-- The pending one-off pointer is unchanged by `setHand`. -/
theorem oneoff_setHand (s : GameState) (p : Nat) (l : List Card) :
    (setHand s p l).one_off_card_to_counter = s.one_off_card_to_counter := by
  cases p <;> rfl

/-- `resolving_one_off` is unchanged by `setHand`. -/
theorem resolving_one_off_setHand (s : GameState) (p : Nat) (l : List Card) :
    (setHand s p l).resolving_one_off = s.resolving_one_off := by
  cases p <;> rfl

/-- The discard pile is unchanged by `setHand`. -/
theorem discard_setHand (s : GameState) (p : Nat) (l : List Card) :
    (setHand s p l).discard_pile = s.discard_pile := by
  cases p <;> rfl

/-- The pending one-off pointer after a by-id mutation. -/
theorem oneoff_mutateCard (s : GameState) (cid : Nat) (f : Card → Card) :
    (mutateCard s cid f).one_off_card_to_counter
      = s.one_off_card_to_counter.map
          (fun x => if x.id == cid then f x else x) := rfl

/-- `current_action_player` is unchanged by a by-id mutation. -/
theorem cap_mutateCard (s : GameState) (cid : Nat) (f : Card → Card) :
    (mutateCard s cid f).current_action_player = s.current_action_player := rfl

/-- `resolving_one_off` is unchanged by a by-id mutation. -/
theorem resolving_one_off_mutateCard (s : GameState) (cid : Nat)
    (f : Card → Card) :
    (mutateCard s cid f).resolving_one_off = s.resolving_one_off := rfl

/-- Clearing an already clear card is the identity. -/
theorem Card.clear_of_cleared {c : Card} (h1 : c.played_by = none)
    (h2 : c.purpose = none) : c.clear_player_info = c := by
  cases c with
  | mk i su ra pb pu a =>
    simp only [Card.played_by] at h1
    simp only [Card.purpose] at h2
    rw [Card.clear_player_info, h1, h2]

/-- `setPurpose` keeps the purpose it sets. -/
theorem Card.purpose_setPurpose (v : Option Purpose) (c : Card) :
    (Card.setPurpose v c).purpose = v := by
  cases c
  rfl

/-- `setPurpose` does not change the id. -/
theorem Card.id_setPurpose (v : Option Purpose) (c : Card) :
    (Card.setPurpose v c).id = c.id := by
  cases c
  rfl

/-- `hand` ignores `last_action_played_by`. -/
theorem hand_withLast (s : GameState) (v : Option Nat) (p : Nat) :
    hand { s with last_action_played_by := v } p = hand s p := by
  cases p <;> rfl

/-- The counter branch of `play_one_off`, for a freshly stamped Two
(purpose just set to `Counter`, `played_by` unset): it never raises,
reports the turn unfinished with no chain owner, and preserves the
pending pointer (which holds the countered card `c`), the turn, the
actor and the phase flag. -/
theorem play_one_off_counter_spec (s0 : GameState) (player : Nat)
    (two c : Card) (inputs : List Nat)
    (hpv : two.point_value = 2) (hpb : two.played_by = none)
    (hid : c.id ≠ two.id)
    (hc1 : c.played_by = none) (hc2 : c.purpose = none)
    (hoo : s0.one_off_card_to_counter = some c) :
    ∃ q', play_one_off s0 player c (some (two.setPurpose (some .counter)))
        none inputs = ⟨q', inputs, .ok (false, none)⟩ ∧
      q'.one_off_card_to_counter = some c ∧ q'.turn = s0.turn ∧
      q'.current_action_player = s0.current_action_player ∧
      q'.resolving_one_off = s0.resolving_one_off := by
  have hpb' : (two.setPurpose (some .counter)).played_by = none := by
    rw [Card.played_by_setPurpose, hpb]
  have hcc := Card.clear_of_cleared hc1 hc2
  unfold play_one_off
  dsimp only
  rw [if_neg (by rw [Card.point_value_setPurpose, hpv]; exact fun h => h rfl),
    if_neg (by rw [Card.purpose_setPurpose]; exact fun h => h rfl), hpb']
  rw [if_neg (by simp)]
  dsimp only
  rw [hand_withLast]
  rcases hx : extractById (hand s0 s0.turn) c.id with _ | ⟨lv, rest⟩
  · simp only [hx]
    by_cases hm : memberById s0.discard_pile c.id = true
    · rw [if_pos (by show memberById _ c.id = true; exact hm)]
      exact ⟨_, rfl, hoo, rfl, rfl, rfl⟩
    · rw [if_neg (by show ¬ memberById _ c.id = true; exact hm)]
      refine ⟨_, rfl, ?_, rfl, rfl, rfl⟩
      show (mutateCard _ c.id Card.clear_player_info).one_off_card_to_counter
        = some c
      rw [oneoff_mutateCard]
      show Option.map _ s0.one_off_card_to_counter = some c
      rw [hoo]
      simp [hcc]
  · simp only [hx]
    by_cases hm : memberById s0.discard_pile c.id = true
    · rw [if_pos (by
        show memberById (setHand { s0 with last_action_played_by := some player }
          s0.turn rest).discard_pile c.id = true
        rw [discard_setHand]
        exact hm)]
      refine ⟨_, rfl, ?_, ?_, ?_, ?_⟩
      · show (setHand _ s0.turn rest).one_off_card_to_counter = some c
        rw [oneoff_setHand]
        exact hoo
      · show (setHand _ s0.turn rest).turn = s0.turn
        rw [turn_setHand]
      · show (setHand _ s0.turn rest).current_action_player
          = s0.current_action_player
        rw [cap_setHand]
      · show (setHand _ s0.turn rest).resolving_one_off = s0.resolving_one_off
        rw [resolving_one_off_setHand]
    · rw [if_neg (by
        show ¬ memberById (setHand { s0 with last_action_played_by := some player }
          s0.turn rest).discard_pile c.id = true
        rw [discard_setHand]
        exact hm)]
      refine ⟨_, rfl, ?_, ?_, ?_, ?_⟩
      · show (mutateCard _ c.id Card.clear_player_info).one_off_card_to_counter
          = some c
        rw [oneoff_mutateCard]
        show ((setHand { s0 with last_action_played_by := some player }
          s0.turn rest).one_off_card_to_counter).map _ = some c
        rw [oneoff_setHand]
        show (s0.one_off_card_to_counter).map _ = some c
        rw [hoo]
        simp [hcc]
      · show (mutateCard _ c.id Card.clear_player_info).turn = s0.turn
        rw [turn_mutateCard]
        show (setHand _ s0.turn rest).turn = s0.turn
        rw [turn_setHand]
      · show (mutateCard _ c.id Card.clear_player_info).current_action_player
          = s0.current_action_player
        rw [cap_mutateCard]
        show (setHand _ s0.turn rest).current_action_player
          = s0.current_action_player
        rw [cap_setHand]
      · show (mutateCard _ c.id Card.clear_player_info).resolving_one_off
          = s0.resolving_one_off
        rw [resolving_one_off_mutateCard]
        show (setHand _ s0.turn rest).resolving_one_off = s0.resolving_one_off
        rw [resolving_one_off_setHand]

/-- One Counter step of the chain: with the pending pointer at `c`, a
Two from a hand (unplayed, and not the pending card itself) always
applies cleanly, reports the turn unfinished, and preserves the pending
pointer, the turn, the actor and the phase flag. -/
theorem counter_step_spec (q : GameState) (two c : Card)
    (hq1 : q.one_off_card_to_counter = some c)
    (hpv : two.point_value = 2) (hpb : two.played_by = none)
    (hid : two.id ≠ c.id)
    (hc1 : c.played_by = none) (hc2 : c.purpose = none) :
    ∃ q', update_state q (counterActionOf q two) []
        = ⟨q', [], .ok (false, false, none)⟩ ∧
      q'.one_off_card_to_counter = some c ∧ q'.turn = q.turn ∧
      q'.current_action_player = q.current_action_player ∧
      q'.resolving_one_off = q.resolving_one_off := by
  have hpb' : (two.setPurpose (some .counter)).played_by = none := by
    rw [Card.played_by_setPurpose, hpb]
  have hfalse : (c.id == two.id) = false :=
    beq_eq_false_iff_ne.mpr (fun h => hid h.symm)
  have hs1oo : (mutateCard q two.id
      (Card.setPurpose (some Purpose.counter))).one_off_card_to_counter
      = some c := by
    rw [oneoff_mutateCard, hq1, Option.map_some', hfalse]
    simp
  unfold update_state counterActionOf
  dsimp only
  rw [hq1]
  dsimp only
  rw [hpb']
  obtain ⟨q', hq', hoo', ht', hcap', hres'⟩ :=
    play_one_off_counter_spec
      (mutateCard q two.id (Card.setPurpose (some Purpose.counter)))
      (mutateCard q two.id (Card.setPurpose (some Purpose.counter))).turn
      two c [] hpv hpb (fun h => hid h.symm) hc1 hc2 hs1oo
  rw [hq']
  refine ⟨q', rfl, hoo', ?_, ?_, ?_⟩
  · rw [ht', turn_mutateCard]
  · rw [hcap', cap_mutateCard]
  · rw [hres', resolving_one_off_mutateCard]

/-- Identity membership unfolded to membership of the id among the
listed ids. -/
theorem memberById_eq_true_iff {l : List Card} {cid : Nat} :
    memberById l cid = true ↔ cid ∈ l.map Card.id := by
  simp only [memberById, List.any_eq_true, beq_iff_eq, List.mem_map]

/-- The member removed by `extractById` carries the requested id. -/
theorem extractById_id : ∀ {l : List Card} {cid : Nat} {lv : Card}
    {rest : List Card}, extractById l cid = some (lv, rest) → lv.id = cid := by
  intro l
  induction l with
  | nil => intro cid lv rest h; simp [extractById] at h
  | cons a t ih =>
    intro cid lv rest h
    rw [extractById] at h
    by_cases hb : (a.id == cid) = true
    · rw [if_pos hb] at h
      simp only [Option.some.injEq, Prod.mk.injEq] at h
      rw [← h.1]
      exact beq_iff_eq.mp hb
    · rw [if_neg hb] at h
      rcases hrec : extractById t cid with _ | ⟨lv2, rest2⟩
      · rw [hrec] at h; simp at h
      · rw [hrec] at h
        simp only [Option.some.injEq, Prod.mk.injEq] at h
        rw [← h.1]
        exact ih hrec

/-- `clear_player_info` does not change the id. -/
theorem Card.id_clear (c : Card) : c.clear_player_info.id = c.id := by
  cases c
  rfl

/-- The listed discard ids are stable under a by-id mutation with an
id-preserving function. -/
theorem discard_ids_mutateCard (s : GameState) (cid : Nat) (f : Card → Card)
    (hf : ∀ x, (f x).id = x.id) :
    (mutateCard s cid f).discard_pile.map Card.id
      = s.discard_pile.map Card.id := by
  show (s.discard_pile.map _).map Card.id = _
  rw [List.map_map]
  apply List.map_congr_left
  intro a _
  by_cases h : (a.id == cid) = true <;> simp [Function.comp, h, hf]

/-- After the counter-accepted resolution, the one-off card's id is in
the discard pile. -/
theorem resolveCountered_discard_mem (s : GameState) (c : Card) :
    c.id ∈ (resolveCountered s c).discard_pile.map Card.id := by
  unfold resolveCountered
  rw [discard_ids_mutateCard _ _ _ Card.id_clear]
  rcases hx : extractById (hand s s.turn) c.id with _ | ⟨lv, rest⟩
  · dsimp only
    by_cases hm : memberById s.discard_pile c.id = true
    · rw [if_pos hm]
      exact memberById_eq_true_iff.mp hm
    · rw [if_neg hm]
      show c.id ∈ (s.discard_pile ++ [c]).map Card.id
      simp
  · dsimp only
    by_cases hm : memberById
        (setHand s s.turn rest).discard_pile c.id = true
    · rw [if_pos hm]
      rw [discard_setHand] at hm
      rw [discard_setHand]
      exact memberById_eq_true_iff.mp hm
    · rw [if_neg hm]
      show c.id ∈ ((setHand s s.turn rest).discard_pile ++ [lv]).map Card.id
      rw [List.map_append]
      apply List.mem_append_right
      simp [extractById_id hx]

/-- After a successful uncountered resolution, the one-off card's id is
in the discard pile. -/
theorem resolveUncountered_discard_mem (s : GameState) (c : Card)
    (inputs : List Nat) {s' : GameState} {in' : List Nat}
    (h : resolveUncountered s c inputs = ⟨s', in', .ok ()⟩) :
    c.id ∈ s'.discard_pile.map Card.id := by
  unfold resolveUncountered at h
  rcases hx : extractById (hand s s.turn) c.id with _ | ⟨lv, rest⟩ <;>
    simp only [hx] at h <;>
    split at h
  case _ s2 in2 u heff =>
    split at h
    case _ hm =>
      injection h with h1 h2 h3
      subst h1
      rw [discard_ids_mutateCard _ _ _ Card.id_clear]
      rw [memberById_eq_true_iff,
        discard_ids_mutateCard _ _ _ Card.id_clear] at hm
      exact hm
    case _ hm =>
      injection h with h1 h2 h3
      subst h1
      show c.id ∈ (_ ++ [_]).map Card.id
      rw [List.map_append]
      apply List.mem_append_right
      simp [Card.id_clear, Card.id_setPurpose]
  case _ s2 in2 e heff => simp at h
  case _ s2 in2 u heff =>
    split at h
    case _ hm =>
      injection h with h1 h2 h3
      subst h1
      rw [discard_ids_mutateCard _ _ _ Card.id_clear]
      rw [memberById_eq_true_iff,
        discard_ids_mutateCard _ _ _ Card.id_clear] at hm
      exact hm
    case _ hm =>
      injection h with h1 h2 h3
      subst h1
      show c.id ∈ (_ ++ [_]).map Card.id
      rw [List.map_append]
      apply List.mem_append_right
      simp [Card.id_clear, Card.id_setPurpose, extractById_id hx]
  case _ s2 in2 e heff => simp at h

/-- The chain of Counters: applied to any state whose pending pointer is
the (clean) card `c`, Twos that are unplayed, distinct from `c`,
always apply cleanly; the pending pointer, turn and phase flag survive,
and the actor advances once per counter. -/
theorem chainCounters_spec (c : Card) (hc1 : c.played_by = none)
    (hc2 : c.purpose = none) :
    ∀ (twos : List Card) (q : GameState),
      q.one_off_card_to_counter = some c →
      q.current_action_player < 2 →
      (∀ two ∈ twos, two.point_value = 2 ∧ two.played_by = none ∧
        two.id ≠ c.id) →
      ∃ sp, chainCounters q twos = (sp, .ok ()) ∧
        sp.one_off_card_to_counter = some c ∧ sp.turn = q.turn ∧
        sp.current_action_player
          = (q.current_action_player + twos.length) % 2 ∧
        sp.resolving_one_off = q.resolving_one_off := by
  intro twos
  induction twos with
  | nil =>
    intro q hq1 hcap htw
    exact ⟨q, rfl, hq1, rfl, by simp [Nat.mod_eq_of_lt hcap], rfl⟩
  | cons two rest ih =>
    intro q hq1 hcap htw
    obtain ⟨hpv, hpb, hid⟩ := htw two (List.mem_cons_self two rest)
    obtain ⟨q', hq', hoo', ht', hcap', hres'⟩ :=
      counter_step_spec q two c hq1 hpv hpb hid hc1 hc2
    obtain ⟨sp, hsp, hoo2, ht2, hcap2, hres2⟩ :=
      ih (next_player q') hoo'
        (by show (q'.current_action_player + 1) % 2 < 2; omega)
        (fun x hx => htw x (List.mem_cons_of_mem _ hx))
    refine ⟨sp, ?_, hoo2, ?_, ?_, ?_⟩
    · show chainCounters q (two :: rest) = (sp, Except.ok ())
      rw [chainCounters, hq']
      exact hsp
    · rw [ht2]
      show q'.turn = q.turn
      exact ht'
    · rw [hcap2]
      show ((q'.current_action_player + 1) % 2 + rest.length) % 2
        = (q.current_action_player + (two :: rest).length) % 2
      rw [hcap', List.length_cons]
      omega
    · rw [hres2]
      show q'.resolving_one_off = q.resolving_one_off
      exact hres'

/-- Opening the chain: the OneOff apply always reports the turn
unfinished, sets the phase flag and the pending pointer, and the driver
hands the word to the opponent. -/
theorem chainStart_spec (s : GameState) (c : Card) :
    chainStart s c =
      (next_player { s with
        last_action_played_by := some s.turn
        resolving_one_off := true
        one_off_card_to_counter := some c }, .ok ()) := by
  unfold chainStart update_state oneOffAction
  dsimp only
  unfold play_one_off
  dsimp only
  rw [if_pos rfl]

/-- C2: in a counter chain opened by a OneOff action in a base-phase
state (actor = turn player, the one-off card unplayed) and continued,
as the driver does, by `k` Counter actions built by the enumerator from
unplayed Twos, followed by the enumerator's Resolve:
 * the chain prefix never fails, keeps the pending pointer on the
   one-off card and alternates `current_action_player`;
 * when `k` is even the Resolve runs `resolveUncountered` -- the branch
   that invokes `apply_one_off_effect`, i.e. the card's effect is
   executed -- and when `k` is odd it runs `resolveCountered`, which
   discards the card without its effect;
 * whenever the chain returns successfully, the one-off card's id ends
   up in the discard pile. -/
theorem counter_chain_parity (s : GameState) (c : Card) (twos : List Card)
    (inputs : List Nat)
    (ht : s.turn < 2) (hcap : s.current_action_player = s.turn)
    (hc1 : c.played_by = none) (hc2 : c.purpose = none)
    (htwos : ∀ two ∈ twos, two.point_value = 2 ∧ two.played_by = none ∧
      two.id ≠ c.id) :
    ∃ sp, chainBeforeResolve s c twos = (sp, .ok ()) ∧
      sp.one_off_card_to_counter = some c ∧
      sp.resolving_one_off = true ∧
      sp.turn = s.turn ∧
      sp.current_action_player = (s.turn + 1 + twos.length) % 2 ∧
      (Even twos.length →
        runChain s c twos inputs =
          (match resolveUncountered
              { sp with last_action_played_by := some sp.turn } c inputs with
           | ⟨s', in', .ok _⟩ =>
             ⟨s', in', .ok (true, (winner s').isSome, winner s')⟩
           | ⟨s', in', .error e⟩ => ⟨s', in', .error e⟩)) ∧
      (¬ Even twos.length →
        runChain s c twos inputs =
          ⟨resolveCountered { sp with last_action_played_by := some sp.turn } c,
           inputs,
           .ok (true,
             (winner (resolveCountered
               { sp with last_action_played_by := some sp.turn } c)).isSome,
             winner (resolveCountered
               { sp with last_action_played_by := some sp.turn } c))⟩) ∧
      (∀ s' in' v, runChain s c twos inputs = ⟨s', in', .ok v⟩ →
        c.id ∈ s'.discard_pile.map Card.id) := by
  obtain ⟨sp, hsp, hoo, ht2, hcap2, hres⟩ :=
    chainCounters_spec c hc1 hc2 twos
      (next_player { s with
        last_action_played_by := some s.turn
        resolving_one_off := true
        one_off_card_to_counter := some c })
      rfl
      (by show (s.current_action_player + 1) % 2 < 2; omega)
      htwos
  have hpre : chainBeforeResolve s c twos = (sp, .ok ()) := by
    unfold chainBeforeResolve
    rw [chainStart_spec]
    exact hsp
  have hcap3 : sp.current_action_player = (s.turn + 1 + twos.length) % 2 := by
    rw [hcap2]
    show ((s.current_action_player + 1) % 2 + twos.length) % 2 = _
    rw [hcap]
    omega
  have hturn : sp.turn = s.turn := ht2
  have hresolve : runChain s c twos inputs
      = update_state sp (resolveActionOf sp) inputs := by
    unfold runChain
    rw [hpre]
  have hplay : update_state sp (resolveActionOf sp) inputs =
      (match play_one_off sp sp.turn c none
          (some sp.current_action_player) inputs with
       | ⟨s', in', .ok (true, _)⟩ =>
         ⟨s', in', .ok (true, (winner s').isSome, winner s')⟩
       | ⟨s', in', .ok (false, _)⟩ => ⟨s', in', .ok (false, false, none)⟩
       | ⟨s', in', .error e⟩ => ⟨s', in', .error e⟩) := by
    unfold update_state resolveActionOf
    dsimp only
    rw [hoo]
  have heven : Even twos.length →
      runChain s c twos inputs =
        (match resolveUncountered
            { sp with last_action_played_by := some sp.turn } c inputs with
         | ⟨s', in', .ok _⟩ =>
           ⟨s', in', .ok (true, (winner s').isSome, winner s')⟩
         | ⟨s', in', .error e⟩ => ⟨s', in', .error e⟩) := by
    intro hev
    have hne : sp.current_action_player ≠ sp.turn := by
      rw [hcap3, hturn]
      rw [Nat.even_iff] at hev
      omega
    rw [hresolve, hplay]
    unfold play_one_off
    dsimp only
    rw [if_pos hne]
    rcases hru : resolveUncountered
        { sp with last_action_played_by := some sp.turn } c inputs
      with ⟨s', in', r⟩
    cases r with
    | ok u => cases u; rfl
    | error e => rfl
  have hodd : ¬ Even twos.length →
      runChain s c twos inputs =
        ⟨resolveCountered { sp with last_action_played_by := some sp.turn } c,
         inputs,
         .ok (true,
           (winner (resolveCountered
             { sp with last_action_played_by := some sp.turn } c)).isSome,
           winner (resolveCountered
             { sp with last_action_played_by := some sp.turn } c))⟩ := by
    intro hodd
    have heq : sp.current_action_player = sp.turn := by
      rw [hcap3, hturn]
      rw [Nat.even_iff] at hodd
      omega
    rw [hresolve, hplay]
    unfold play_one_off
    dsimp only
    rw [if_neg (fun hne => hne heq)]
  refine ⟨sp, hpre, hoo, ?_, hturn, hcap3, heven, hodd, ?_⟩
  · rw [hres]
    rfl
  · intro s' in' v hrun
    by_cases hev : Even twos.length
    · rw [heven hev] at hrun
      rcases hru : resolveUncountered
          { sp with last_action_played_by := some sp.turn } c inputs
        with ⟨s2, in2, r⟩
      rw [hru] at hrun
      cases r with
      | ok u =>
        cases u
        injection hrun with h1 h2 h3
        subst h1
        exact resolveUncountered_discard_mem _ _ _ hru
      | error e => simp at hrun
    · rw [hodd hev] at hrun
      injection hrun with h1 h2 h3
      subst h1
      exact resolveCountered_discard_mem _ _

/-- An Ace played as a one-off in the witness chain. -/
def chainAce : Card := .mk 101 .spades .ace none none []

/-- A base-phase state for the chain witness: player 0 holds the Ace,
player 1 has a Five on the field. -/
def stateChainWitness : GameState :=
  { emptyState with
    hand0 := [chainAce]
    field1 := [.mk 102 .hearts .five (some 1) (some .points) []] }

/-- Witness for `counter_chain_parity`: a zero-counter chain around an
Ace one-off; the Ace ends up discarded. -/
theorem counter_chain_parity_witness :
    stateChainWitness.turn < 2 ∧
    stateChainWitness.current_action_player = stateChainWitness.turn ∧
    chainAce.played_by = none ∧
    chainAce.id ∈
      (runChain stateChainWitness chainAce [] []).st.discard_pile.map
        Card.id := by
  obtain ⟨sp, hsp, hoo, hres, hturn, hcap, heven, hodd, hdis⟩ :=
    counter_chain_parity stateChainWitness chainAce [] [] (by decide) rfl
      rfl rfl (by intro two h; simp at h)
  refine ⟨by decide, rfl, rfl, ?_⟩
  exact hdis (runChain stateChainWitness chainAce [] []).st
    (runChain stateChainWitness chainAce [] []).inputs (true, false, none) rfl

/-! ## Snapshots: `serializer.py` and `GameState.to_dict` / `from_dict`

Python enum members are looked up by name (`Suit[name]` etc.); a failed
lookup raises `KeyError`, modelled by `Option`. -/

/-- The Python member name of each `Suit` value (`suit.name`). -/
def Suit.pyName : Suit → String
  | .clubs => "CLUBS"
  | .diamonds => "DIAMONDS"
  | .hearts => "HEARTS"
  | .spades => "SPADES"

/-- `Suit[name]`: enum lookup by member name, `none` for a `KeyError`. -/
def suitFromName (n : String) : Option Suit :=
  if n = "CLUBS" then some .clubs
  else if n = "DIAMONDS" then some .diamonds
  else if n = "HEARTS" then some .hearts
  else if n = "SPADES" then some .spades
  else none

/-- The Python member name of each `Rank` value (`rank.name`). -/
def Rank.pyName : Rank → String
  | .ace => "ACE"
  | .two => "TWO"
  | .three => "THREE"
  | .four => "FOUR"
  | .five => "FIVE"
  | .six => "SIX"
  | .seven => "SEVEN"
  | .eight => "EIGHT"
  | .nine => "NINE"
  | .ten => "TEN"
  | .jack => "JACK"
  | .queen => "QUEEN"
  | .king => "KING"

/-- `Rank[name]`: enum lookup by member name. -/
def rankFromName (n : String) : Option Rank :=
  if n = "ACE" then some .ace
  else if n = "TWO" then some .two
  else if n = "THREE" then some .three
  else if n = "FOUR" then some .four
  else if n = "FIVE" then some .five
  else if n = "SIX" then some .six
  else if n = "SEVEN" then some .seven
  else if n = "EIGHT" then some .eight
  else if n = "NINE" then some .nine
  else if n = "TEN" then some .ten
  else if n = "JACK" then some .jack
  else if n = "QUEEN" then some .queen
  else if n = "KING" then some .king
  else none

/-- The Python member name of each `Purpose` value (`purpose.name`). -/
def Purpose.pyName : Purpose → String
  | .points => "POINTS"
  | .face_card => "FACE_CARD"
  | .one_off => "ONE_OFF"
  | .counter => "COUNTER"
  | .jack => "JACK"
  | .scuttle => "SCUTTLE"

/-- `Purpose[name]`: enum lookup by member name. -/
def purposeFromName (n : String) : Option Purpose :=
  if n = "POINTS" then some .points
  else if n = "FACE_CARD" then some .face_card
  else if n = "ONE_OFF" then some .one_off
  else if n = "COUNTER" then some .counter
  else if n = "JACK" then some .jack
  else if n = "SCUTTLE" then some .scuttle
  else none

/-- Looking an enum member up by its own name gives the member back. -/
theorem suitFromName_pyName (s : Suit) : suitFromName s.pyName = some s := by
  cases s <;> rfl

/-- Rank lookup inverts the member name. -/
theorem rankFromName_pyName (r : Rank) : rankFromName r.pyName = some r := by
  cases r <;> rfl

/-- Purpose lookup inverts the member name. -/
theorem purposeFromName_pyName (p : Purpose) :
    purposeFromName p.pyName = some p := by
  cases p <;> rfl

/-- The dictionary produced for one card by `Card.to_dict` (`card.py`
lines 175-184): `id`, `suit.name`, `rank.name`, `played_by`, the
optional `purpose.name` and the recursively serialized `attachments`. -/
inductive CardDict where
  | mk (id : Nat) (suit : String) (rank : String) (played_by : Option Nat)
      (purpose : Option String) (attachments : List CardDict)

/-- `Card.to_dict` (`card.py` lines 175-184). -/
def Card.to_dict : Card → CardDict
  | .mk i su ra pb pu atts =>
    .mk i su.pyName ra.pyName pb (pu.map Purpose.pyName)
      (atts.attach.map (fun x => Card.to_dict x.1))
decreasing_by
  simp_wf
  have := List.sizeOf_lt_of_mem x.2
  omega

/-- Evaluate a list of fallible computations left to right, failing if
one fails — the effect of a Python list comprehension whose body can
raise. -/
def seqOptions : List (Option Card) → Option (List Card)
  | [] => some []
  | o :: t =>
    match o with
    | none => none
    | some c =>
      match seqOptions t with
      | none => none
      | some l => some (c :: l)

/-- `Card.from_dict` (`card.py` lines 186-201): parses suit, rank and
purpose by enum member name (a `KeyError` becomes `none`) and rebuilds
the attachments recursively.  The source's `if att_data` filter only
skips falsy (empty) dictionaries, which `to_dict` never produces. -/
def Card.from_dict : CardDict → Option Card
  | .mk i su ra pb pu atts =>
    match seqOptions (atts.attach.map (fun x => Card.from_dict x.1)) with
    | none => none
    | some al =>
      match suitFromName su with
      | none => none
      | some s =>
        match rankFromName ra with
        | none => none
        | some r =>
          match pu with
          | none => some (.mk i s r pb none al)
          | some pn =>
            match purposeFromName pn with
            | none => none
            | some q => some (.mk i s r pb (some q) al)
decreasing_by
  simp_wf
  have := List.sizeOf_lt_of_mem x.2
  omega

/-- Sequencing a list of already-successful computations succeeds. -/
theorem seqOptions_map_some (l : List Card) :
    seqOptions (l.map some) = some l := by
  induction l with
  | nil => rfl
  | cons c t ih => rw [List.map_cons, seqOptions, ih]

/-- `Card.from_dict` inverts `Card.to_dict` exactly, attachments
included. -/
theorem Card.from_to_dict : ∀ c : Card, Card.from_dict c.to_dict = some c
  | .mk i su ra pb pu atts => by
    rw [Card.to_dict, Card.from_dict]
    have hatts :
        seqOptions
          (((atts.attach.map (fun x => Card.to_dict x.1)).attach.map
            (fun x => Card.from_dict x.1))) = some atts := by
      rw [List.attach_map_coe, List.attach_map_coe, List.map_map]
      have h2 : atts.map (Card.from_dict ∘ Card.to_dict) = atts.map some :=
        List.map_congr_left (fun a ha => Card.from_to_dict a)
      rw [h2, seqOptions_map_some]
    rw [hatts, suitFromName_pyName, rankFromName_pyName]
    cases pu with
    | none => rfl
    | some p => cases p <;> rfl
decreasing_by
  simp_wf
  have := List.sizeOf_lt_of_mem ha
  omega

/-- The dictionary produced by `GameState.to_dict` (`game_state.py`
lines 933-957): the two hands and two fields, the deck, the discard
pile, and every scalar attribute including `resolving_three`, the
pending one-off card, `use_ai` and `overall_turn`. -/
structure GameStateDict where
  hands0 : List CardDict
  hands1 : List CardDict
  fields0 : List CardDict
  fields1 : List CardDict
  deck : List CardDict
  discard_pile : List CardDict
  turn : Nat
  last_action_played_by : Option Nat
  current_action_player : Nat
  status : Option String
  resolving_two : Bool
  resolving_one_off : Bool
  resolving_three : Bool
  one_off_card_to_counter : Option CardDict
  use_ai : Bool
  overall_turn : Nat

/-- `GameState.to_dict` (`game_state.py` lines 933-957). -/
def GameState.to_dict (s : GameState) : GameStateDict where
  hands0 := s.hand0.map Card.to_dict
  hands1 := s.hand1.map Card.to_dict
  fields0 := s.field0.map Card.to_dict
  fields1 := s.field1.map Card.to_dict
  deck := s.deck.map Card.to_dict
  discard_pile := s.discard_pile.map Card.to_dict
  turn := s.turn
  last_action_played_by := s.last_action_played_by
  current_action_player := s.current_action_player
  status := s.status
  resolving_two := s.resolving_two
  resolving_one_off := s.resolving_one_off
  resolving_three := s.resolving_three
  one_off_card_to_counter := s.one_off_card_to_counter.map Card.to_dict
  use_ai := s.use_ai
  overall_turn := s.overall_turn

/-- `[Card.from_dict(card) for card in l]`: a raise propagates. -/
def fromDictList (l : List CardDict) : Option (List Card) :=
  seqOptions (l.map Card.from_dict)

/-- `Card.from_dict(data) if data is not None else None`, for the
pending one-off card slot. -/
def fromDictOpt (o : Option CardDict) : Option (Option Card) :=
  match o with
  | none => some none
  | some cd => (Card.from_dict cd).map some

/-- `GameState.from_dict` (`game_state.py` lines 959-1004): rebuilds the
containers with `Card.from_dict`, constructs the state and overwrites
every scalar attribute from the dictionary; `ai_player` is set to `None`
(a placeholder, the caller installs the actual instance). -/
def GameState.from_dict (d : GameStateDict) : Option GameState :=
  match fromDictList d.hands0, fromDictList d.hands1,
      fromDictList d.fields0, fromDictList d.fields1,
      fromDictList d.deck, fromDictList d.discard_pile,
      fromDictOpt d.one_off_card_to_counter with
  | some h0, some h1, some f0, some f1, some dk, some dp, some oo =>
    some
      { hand0 := h0
        hand1 := h1
        field0 := f0
        field1 := f1
        deck := dk
        discard_pile := dp
        turn := d.turn
        current_action_player := d.current_action_player
        status := d.status
        resolving_two := d.resolving_two
        resolving_one_off := d.resolving_one_off
        resolving_three := d.resolving_three
        one_off_card_to_counter := oo
        use_ai := d.use_ai
        ai_player := false
        overall_turn := d.overall_turn
        last_action_played_by := d.last_action_played_by }
  | _, _, _, _, _, _, _ => none

/-- Restoring a serialized card list restores it exactly. -/
theorem fromDictList_map_to_dict (l : List Card) :
    fromDictList (l.map Card.to_dict) = some l := by
  rw [fromDictList, List.map_map]
  have h : l.map (Card.from_dict ∘ Card.to_dict) = l.map some :=
    List.map_congr_left (fun a _ => Card.from_to_dict a)
  rw [h, seqOptions_map_some]

/-- Restoring a serialized optional card restores it exactly. -/
theorem fromDictOpt_map_to_dict (oc : Option Card) :
    fromDictOpt (oc.map Card.to_dict) = some oc := by
  cases oc with
  | none => rfl
  | some c =>
    show (Card.from_dict c.to_dict).map some = some (some c)
    rw [Card.from_to_dict c]
    rfl

/-- The dictionary produced by `serializer.serialize_card`
(`serializer.py` lines 15-38): unlike `Card.to_dict` it has NO
`attachments` key, so attachment information is lost.  (The source also
stringifies `card.id`; ids are opaque tokens here.) -/
structure SerializedCard where
  id : Nat
  suit : String
  rank : String
  played_by : Option Nat
  purpose : Option String

/-- `serializer.serialize_card`. -/
def serialize_card (c : Card) : SerializedCard where
  id := c.id
  suit := c.suit.pyName
  rank := c.rank.pyName
  played_by := c.played_by
  purpose := c.purpose.map Purpose.pyName

/-- `serializer.deserialize_card` (lines 41-64): rebuilds the card with
an EMPTY attachments list (the constructor default). -/
def deserialize_card (d : SerializedCard) : Option Card :=
  match suitFromName d.suit with
  | none => none
  | some s =>
    match rankFromName d.rank with
    | none => none
    | some r =>
      match d.purpose with
      | none => some (.mk d.id s r d.played_by none [])
      | some pn =>
        match purposeFromName pn with
        | none => none
        | some q => some (.mk d.id s r d.played_by (some q) [])

/-- The dictionary produced by `serializer.serialize_game_state`
(lines 67-102): only hands, fields, deck, discard pile, `turn`,
`last_action_played_by`, `current_action_player`, `status`,
`resolving_two` and `resolving_one_off` are written — NOT
`resolving_three`, `one_off_card_to_counter`, `use_ai` or
`overall_turn`. -/
structure SerializedGameState where
  hands0 : List SerializedCard
  hands1 : List SerializedCard
  fields0 : List SerializedCard
  fields1 : List SerializedCard
  deck : List SerializedCard
  discard_pile : List SerializedCard
  turn : Nat
  last_action_played_by : Option Nat
  current_action_player : Nat
  status : Option String
  resolving_two : Bool
  resolving_one_off : Bool

/-- `serializer.serialize_game_state`. -/
def serialize_game_state (s : GameState) : SerializedGameState where
  hands0 := s.hand0.map serialize_card
  hands1 := s.hand1.map serialize_card
  fields0 := s.field0.map serialize_card
  fields1 := s.field1.map serialize_card
  deck := s.deck.map serialize_card
  discard_pile := s.discard_pile.map serialize_card
  turn := s.turn
  last_action_played_by := s.last_action_played_by
  current_action_player := s.current_action_player
  status := s.status
  resolving_two := s.resolving_two
  resolving_one_off := s.resolving_one_off

/-- `[deserialize_card(d) for d in l]`. -/
def deserializeCards (l : List SerializedCard) : Option (List Card) :=
  seqOptions (l.map deserialize_card)

/-- `serializer.deserialize_game_state` (lines 105-140): rebuilds the
containers, constructs a fresh `GameState` (all defaults) and overwrites
only the six scalar attributes present in its dictionary. -/
def deserialize_game_state (d : SerializedGameState) : Option GameState :=
  match deserializeCards d.hands0 with
  | none => none
  | some h0 =>
    match deserializeCards d.hands1 with
    | none => none
    | some h1 =>
      match deserializeCards d.fields0 with
      | none => none
      | some f0 =>
        match deserializeCards d.fields1 with
        | none => none
        | some f1 =>
          match deserializeCards d.deck with
          | none => none
          | some dk =>
            match deserializeCards d.discard_pile with
            | none => none
            | some dp =>
              some
                { GameState.init (h0, h1) (f0, f1) dk dp with
                  turn := d.turn
                  last_action_played_by := d.last_action_played_by
                  current_action_player := d.current_action_player
                  status := d.status
                  resolving_two := d.resolving_two
                  resolving_one_off := d.resolving_one_off }

/-- A Jack attached to a stolen point card. -/
def attachedJack : Card := .mk 21 .clubs .jack (some 0) (some .jack) []

/-- A Ten on the field carrying one attachment. -/
def stolenTen : Card := .mk 22 .hearts .ten (some 1) (some .points) [attachedJack]

/-- A pending one-off awaiting counters. -/
def pendingFive : Card := .mk 23 .diamonds .five (some 0) (some .one_off) []

/-- A state exercising exactly the attributes the serializer omits. -/
def stateSnapshotLoss : GameState where
  hand0 := []
  hand1 := []
  field0 := [stolenTen]
  field1 := []
  deck := []
  discard_pile := []
  turn := 1
  current_action_player := 0
  status := none
  resolving_two := false
  resolving_one_off := true
  resolving_three := true
  one_off_card_to_counter := some pendingFive
  use_ai := false
  ai_player := false
  overall_turn := 5
  last_action_played_by := some 0

/-- C4 counterexample: the `serializer.py` snapshot round trip is not
faithful.  On `stateSnapshotLoss` it resets `resolving_three` to false,
resets `overall_turn` to 0, drops the pending one-off card and strips
the attachment from the field card, because `serialize_game_state` never
writes those attributes and `serialize_card` omits attachments. -/
theorem serializer_round_trip_drops_state_counterexample :
    stateSnapshotLoss.resolving_three = true ∧
    stateSnapshotLoss.overall_turn = 5 ∧
    stateSnapshotLoss.one_off_card_to_counter.isSome = true ∧
    stateSnapshotLoss.field0.map (fun c => c.attachments.length) = [1] ∧
    (deserialize_game_state (serialize_game_state stateSnapshotLoss)).map
        (fun t => (t.resolving_three, t.overall_turn,
          t.one_off_card_to_counter.isSome,
          t.field0.map (fun c => c.attachments.length)))
      = some (false, 0, false, [0]) :=
  ⟨rfl, rfl, rfl, rfl, rfl⟩

/-- C4 (amended): the `GameState.to_dict` / `GameState.from_dict` pair
IS a faithful snapshot: restoring the dictionary of any state rebuilds
every hand, field, the deck and discard order, all attachments
recursively, every phase flag including `resolving_three`, the pending
one-off card, `use_ai`, `overall_turn` and `last_action_played_by`;
only `ai_player` is reset to its placeholder.  (The `serializer.py`
pair, by contrast, loses state — see the counterexample.) -/
theorem dict_round_trip (s : GameState) :
    GameState.from_dict s.to_dict = some { s with ai_player := false } := by
  obtain ⟨h0, h1, f0, f1, dk, dp, tn, cap, stt, r2, r1, r3, oc, ua, ap, ov, la⟩ := s
  rw [GameState.from_dict]
  dsimp only [GameState.to_dict]
  rw [fromDictList_map_to_dict, fromDictList_map_to_dict,
    fromDictList_map_to_dict, fromDictList_map_to_dict,
    fromDictList_map_to_dict, fromDictList_map_to_dict,
    fromDictOpt_map_to_dict]

end Cuttle
